import Mathlib

/-!
Verification of the PicoCart64 v2 firmware core against its design spec.

The definitions below are a shallow embedding of
`src/sw/picocart64_v2/sdcard/internal_sd_card.c` (inter-MCU command framing
protocol, SD job flags) and `src/sw/picocart64_v2/n64_pi_task.c` (the PI bus
dispatcher).  Machine integers are modelled as `Nat` with explicit `% 2^w`
truncation at the points where the C code truncates (stores into `uint8_t`/
`uint16_t` variables, `putc` of a `char`, ...).  Hardware side effects
(`pio_sm_put`, `multicore_fifo_push_blocking`, ...) are recorded as explicit
events or output lists.  Big shared buffers are modelled as functions
`Nat → Nat` from index to byte/half-word value.
-/

namespace PicoCart

/-! ## Command framing constants (from internal_sd_card.c lines 41-50) -/

def COMMAND_START : Nat := 0xDE
def COMMAND_START2 : Nat := 0xAD
def COMMAND_SD_READ : Nat := 0x72
def COMMAND_SD_WRITE : Nat := 0x77
def COMMAND_LOAD_ROM : Nat := 0x6C
def COMMAND_ROM_LOADED : Nat := 0xC6
def COMMAND_BACKUP_EEPROM : Nat := 0xBE
def COMMAND_LOAD_BACKUP_EEPROM : Nat := 0xEB
def COMMAND_SET_EEPROM_TYPE : Nat := 0xE7
def SD_CARD_SECTOR_SIZE : Nat := 512
def COMMAND_HEADER_LENGTH : Nat := 3

/-- Little-endian store of a 16-bit value into the byte view of a
`uint16_t` array, as the RP2040 (a little-endian Cortex-M0+) lays it out:
`pc64_uart_tx_buf[i] = v` writes byte `2*i` with the low byte of `v` and
byte `2*i+1` with the high byte. -/
def storeWord16 (buf : Nat → Nat) (i v : Nat) : Nat → Nat :=
  Function.update (Function.update buf (2 * i) (v % 256)) (2 * i + 1) ((v >>> 8) % 256)

/-- Little-endian load of `pc64_uart_tx_buf[i]` from the byte view. -/
def loadWord16 (buf : Nat → Nat) (i : Nat) : Nat :=
  (buf (2 * i) % 256) ||| ((buf (2 * i + 1) % 256) <<< 8)

/-! ## MCU1 receive state machine (internal_sd_card.c lines 332-442)

State of the bus-facing controller's receive path: the SD-job flags
(`sd_is_busy`, `sendDataReady`, `romLoading`), the frame parser globals
(`mayHaveStart`, `isReadingCommandHeader`, `receivingData`,
`commandHeaderBuffer`, `command_headerBufferIndex`, `command_numBytesToRead`)
and the shared buffer cursors (`bufferIndex`, `bufferByteIndex`,
`lastBufferValue`).  `dispatches` is a ghost log of the commands dispatched,
in order; the C code has no such variable, it is instrumentation for the
statements below and is only ever appended to. -/
structure Mcu1State where
  romLoading : Bool
  sdIsBusy : Bool
  sendDataReady : Bool
  receivingData : Bool
  isReadingCommandHeader : Bool
  mayHaveStart : Bool
  mayHaveFinish : Bool
  chb0 : Nat
  chb1 : Nat
  chb2 : Nat
  chbIndex : Nat
  numBytesToRead : Nat
  bufferIndex : Nat
  bufferByteIndex : Nat
  lastBufferValue : Nat
  buf : Nat → Nat
  eeprom : Nat → Nat
  eepromType : Nat
  dispatches : List Nat

/-- Write `commandHeaderBuffer[command_headerBufferIndex] = value` for the
three in-bounds indices (the index is reset to 0 whenever it reaches 3, so
no other index ever occurs). -/
def writeHeaderByte (s : Mcu1State) (v : Nat) : Mcu1State :=
  if s.chbIndex = 0 then { s with chb0 := v }
  else if s.chbIndex = 1 then { s with chb1 := v }
  else if s.chbIndex = 2 then { s with chb2 := v }
  else s

/-- Dispatch block of `mcu1_process_rx_buffer` (lines 392-417): runs the
command handler for `commandHeaderBuffer[0]` and resets the parser state.
`command_numBytesToRead` is notably NOT reset here (unlike on MCU2). -/
def mcu1Dispatch (s : Mcu1State) : Mcu1State :=
  let cmd := s.chb0
  let s1 :=
    if cmd = COMMAND_SET_EEPROM_TYPE then
      { s with eepromType := ((s.buf 0) <<< 8) ||| (s.buf 1) }
    else if cmd = COMMAND_LOAD_BACKUP_EEPROM then
      s
    else if cmd = COMMAND_ROM_LOADED then
      { s with romLoading := false, sendDataReady := true }
    else
      s
  { s1 with chb0 := 0, chb1 := 0, chb2 := 0, bufferIndex := 0,
            mayHaveFinish := false, mayHaveStart := false, receivingData := false,
            dispatches := s1.dispatches ++ [cmd] }

/-- One iteration of the `while (rx_uart_buffer_has_data())` loop of
`mcu1_process_rx_buffer` on one received byte.  Returns the new state and a
flag that is `true` when the iteration executed `break` (which happens only
in the raw-sector-data path once 512 bytes have accumulated). -/
def mcu1Step (s : Mcu1State) (v : Nat) : Mcu1State × Bool :=
  let value := v % 256
  if s.romLoading then
    let sp : Mcu1State × Bool :=
      if s.receivingData then
        let s1 :=
          if s.chb0 = COMMAND_LOAD_BACKUP_EEPROM then
            { s with eeprom := Function.update s.eeprom s.bufferIndex value,
                     bufferIndex := s.bufferIndex + 1 }
          else
            { s with buf := Function.update s.buf s.bufferIndex value,
                     bufferIndex := s.bufferIndex + 1 }
        if s1.bufferIndex ≥ s1.numBytesToRead then
          ({ s1 with bufferIndex := 0 }, true)
        else (s1, false)
      else if s.isReadingCommandHeader then
        let s1 : Mcu1State := { writeHeaderByte s value with chbIndex := s.chbIndex + 1 }
        if s1.chbIndex ≥ COMMAND_HEADER_LENGTH then
          let s2 : Mcu1State := { s1 with numBytesToRead := ((s1.chb1 <<< 8) ||| s1.chb2) % 65536,
                                          isReadingCommandHeader := false, chbIndex := 0 }
          if s2.numBytesToRead = 0 then
            ({ s2 with bufferIndex := 0 }, true)
          else
            ({ s2 with receivingData := true }, false)
        else (s1, false)
      else if value = COMMAND_START ∧ s.receivingData = false then
        ({ s with mayHaveStart := true }, false)
      else if value = COMMAND_START2 ∧ s.mayHaveStart = true ∧ s.receivingData = false then
        ({ s with isReadingCommandHeader := true }, false)
      else (s, false)
    -- `command_processBuffer` is consumed in the same loop iteration that
    -- sets it; it is threaded here as the Bool of the pair.
    (if sp.2 then mcu1Dispatch sp.1 else sp.1, false)
  else
    -- raw sector-data path (lines 418-440)
    let s1 :=
      if s.bufferByteIndex % 2 = 1 then
        { s with buf := storeWord16 s.buf s.bufferIndex (((s.lastBufferValue <<< 8) ||| value) % 65536),
                 bufferIndex := s.bufferIndex + 1 }
      else
        { s with lastBufferValue := value }
    let s2 := { s1 with bufferByteIndex := s1.bufferByteIndex + 1 }
    if s2.bufferByteIndex ≥ SD_CARD_SECTOR_SIZE then
      ({ s2 with sendDataReady := true }, true)
    else
      -- the second `if (bufferByteIndex >= 512)` in the source is dead code:
      -- it repeats the first comparison, which already broke out of the loop.
      (s2, false)

/-- Run `mcu1_process_rx_buffer` over a list of received bytes, honouring
the `break` in the raw-data path. -/
def mcu1Run (s : Mcu1State) : List Nat → Mcu1State
  | [] => s
  | v :: rest =>
    let r := mcu1Step s v
    if r.2 then r.1 else mcu1Run r.1 rest

/-- MCU1 state with every flag clear and empty buffers, as after boot. -/
def mcu1Idle : Mcu1State :=
  { romLoading := false, sdIsBusy := false, sendDataReady := false,
    receivingData := false, isReadingCommandHeader := false,
    mayHaveStart := false, mayHaveFinish := false,
    chb0 := 0, chb1 := 0, chb2 := 0, chbIndex := 0, numBytesToRead := 0,
    bufferIndex := 0, bufferByteIndex := 0, lastBufferValue := 0,
    buf := fun _ => 0, eeprom := fun _ => 0, eepromType := 0, dispatches := [] }

/-! ## MCU1 command senders (internal_sd_card.c lines 99-159) -/

/-- Byte sequence emitted on the wire by `pc64_send_sd_read_command`
(lines 99-135), given the four `sd_sector_registers`.  `putc` takes a
`char`, hence the `% 256` truncations. -/
def sdReadCommandBytes (r0 r1 r2 r3 : Nat) : List Nat :=
  let sectorCount := 1
  [COMMAND_START, COMMAND_START2, COMMAND_SD_READ, 0, 12,
   (r0 >>> 24) % 256, (r0 >>> 16) % 256,
   (r1 >>> 24) % 256, (r1 >>> 16) % 256,
   (r2 >>> 24) % 256, (r2 >>> 16) % 256,
   (r3 >>> 24) % 256, (r3 >>> 16) % 256,
   ((sectorCount &&& 0xFF000000) >>> 24) % 256,
   ((sectorCount &&& 0x00FF0000) >>> 16) % 256,
   ((sectorCount &&& 0x0000FF00) >>> 8) % 256,
   (sectorCount &&& 0x000000FF) % 256]

/-- State effect of `pc64_send_sd_read_command`: blocks the cart
(`sd_is_busy = true`), clears `sendDataReady` and resets the receive
cursors.  Paired with the bytes it emits. -/
def pc64SendSdReadCommand (s : Mcu1State) (r0 r1 r2 r3 : Nat) :
    Mcu1State × List Nat :=
  ({ s with sdIsBusy := true, sendDataReady := false,
            bufferIndex := 0, bufferByteIndex := 0 },
   sdReadCommandBytes r0 r1 r2 r3)

/-- Byte sequence emitted by `pc64_send_load_new_rom_command`
(lines 138-159); `title` is the byte list of `sd_selected_rom_title`
(no terminating NUL), `strlen` is its length truncated to `uint16_t`. -/
def loadNewRomCommandBytes (title : List Nat) : List Nat :=
  let numBytes := title.length % 65536
  [COMMAND_START, COMMAND_START2, COMMAND_LOAD_ROM,
   (numBytes >>> 8) % 256, numBytes % 256] ++ title.map (fun b => b % 256)

/-- State effect of `pc64_send_load_new_rom_command`: sets `sd_is_busy`
and `romLoading`, clears `sendDataReady`, resets the receive cursors. -/
def pc64SendLoadNewRomCommand (s : Mcu1State) (title : List Nat) :
    Mcu1State × List Nat :=
  ({ s with sdIsBusy := true, sendDataReady := false, romLoading := true,
            bufferIndex := 0, bufferByteIndex := 0 },
   loadNewRomCommandBytes title)

/-- The completion frame MCU2 sends at the end of `load_new_rom`
(lines 323-328): sentinel, `COMMAND_ROM_LOADED`, zero-byte payload. -/
def romLoadedFrame : List Nat :=
  [COMMAND_START, COMMAND_START2, COMMAND_ROM_LOADED, 0x00, 0x00]

/-! ## MCU2 receive state machine (internal_sd_card.c lines 444-534)

The storage-owning controller's frame parser.  Same parser globals as MCU1
(the two MCUs run separate instances of the same file-scope variables), plus
the SD-job state its dispatch handlers mutate.  `dispatches` is again a
ghost log: each entry records the dispatched command id together with the
first `command_numBytesToRead` bytes of the shared buffer at dispatch time
(the accumulated payload). -/
structure Mcu2State where
  receivingData : Bool
  isReadingCommandHeader : Bool
  mayHaveStart : Bool
  mayHaveFinish : Bool
  chb0 : Nat
  chb1 : Nat
  chb2 : Nat
  chbIndex : Nat
  numBytesToRead : Nat
  bufferIndex : Nat
  buf : Nat → Nat
  sectorToSend0 : Nat
  sectorToSend1 : Nat
  numSectorsToSend : Nat
  sendDataReady : Bool
  romTitle : List Nat
  startRomLoad : Bool
  eepromNumBytesToBackup : Nat
  startSaveEeprom : Bool
  dispatches : List (Nat × List Nat)

/-- Write `commandHeaderBuffer[command_headerBufferIndex] = ch` on MCU2. -/
def writeHeaderByte2 (s : Mcu2State) (v : Nat) : Mcu2State :=
  if s.chbIndex = 0 then { s with chb0 := v }
  else if s.chbIndex = 1 then { s with chb1 := v }
  else if s.chbIndex = 2 then { s with chb2 := v }
  else s

/-- Dispatch block of `mcu2_process_rx_buffer` (lines 480-523): runs the
handler for `commandHeaderBuffer[0]` over the accumulated payload and resets
the parser (here `command_numBytesToRead` IS reset to 0). -/
def mcu2Dispatch (s : Mcu2State) : Mcu2State :=
  let cmd := s.chb0
  let payload := (List.range s.numBytesToRead).map s.buf
  let s1 : Mcu2State :=
    if cmd = COMMAND_SD_READ then
      { s with
        sectorToSend0 := ((s.buf 0) <<< 24) ||| ((s.buf 1) <<< 16) ||| ((s.buf 2) <<< 8) ||| (s.buf 3),
        sectorToSend1 := ((s.buf 4) <<< 24) ||| ((s.buf 5) <<< 16) ||| ((s.buf 6) <<< 8) ||| (s.buf 7),
        numSectorsToSend := 1,
        sendDataReady := true }
    else if cmd = COMMAND_LOAD_ROM then
      -- sprintf(sd_selected_rom_title, "%s", buffer): copies bytes up to the
      -- first NUL (title buffer is 256 bytes).
      { s with romTitle := ((List.range 256).map s.buf).takeWhile (fun b => b ≠ 0),
               startRomLoad := true }
    else if cmd = COMMAND_BACKUP_EEPROM then
      { s with eepromNumBytesToBackup := s.numBytesToRead % 65536,
               startSaveEeprom := true }
    else
      s
  { s1 with bufferIndex := 0, mayHaveFinish := false, mayHaveStart := false,
            receivingData := false, numBytesToRead := 0,
            dispatches := s1.dispatches ++ [(cmd, payload)] }

/-- One iteration of the `while (rx_uart_buffer_has_data())` loop of
`mcu2_process_rx_buffer` on one received byte (a `char`, unsigned on ARM,
hence `% 256`).  Note that, unlike MCU1, completing the header always enters
the payload state (`receivingData := true`) even when the length is 0. -/
def mcu2Step (s : Mcu2State) (c : Nat) : Mcu2State :=
  let ch := c % 256
  let sp : Mcu2State × Bool :=
    if s.receivingData then
      let s1 : Mcu2State := { s with buf := Function.update s.buf s.bufferIndex ch,
                                     bufferIndex := s.bufferIndex + 1 }
      if s1.bufferIndex ≥ s1.numBytesToRead then
        ({ s1 with bufferIndex := 0 }, true)
      else (s1, false)
    else if s.isReadingCommandHeader then
      let s1 : Mcu2State := { writeHeaderByte2 s ch with chbIndex := s.chbIndex + 1 }
      if s1.chbIndex ≥ COMMAND_HEADER_LENGTH then
        ({ s1 with numBytesToRead := ((s1.chb1 <<< 8) ||| s1.chb2) % 65536,
                   isReadingCommandHeader := false, receivingData := true,
                   chbIndex := 0 }, false)
      else (s1, false)
    else if ch = COMMAND_START ∧ s.receivingData = false then
      ({ s with mayHaveStart := true }, false)
    else if ch = COMMAND_START2 ∧ s.mayHaveStart = true ∧ s.receivingData = false then
      ({ s with isReadingCommandHeader := true }, false)
    else (s, false)
  if sp.2 then mcu2Dispatch sp.1 else sp.1

/-- Run `mcu2_process_rx_buffer` over a list of received bytes (this loop
has no `break`). -/
def mcu2Run (s : Mcu2State) (bs : List Nat) : Mcu2State :=
  bs.foldl mcu2Step s

/-- MCU2 state with every flag clear, as after boot. -/
def mcu2Idle : Mcu2State :=
  { receivingData := false, isReadingCommandHeader := false,
    mayHaveStart := false, mayHaveFinish := false,
    chb0 := 0, chb1 := 0, chb2 := 0, chbIndex := 0, numBytesToRead := 0,
    bufferIndex := 0, buf := fun _ => 0,
    sectorToSend0 := 0, sectorToSend1 := 0, numSectorsToSend := 0,
    sendDataReady := false, romTitle := [], startRomLoad := false,
    eepromNumBytesToBackup := 0, startSaveEeprom := false, dispatches := [] }

/-- Parser-idle predicate: the IDLE state of the spec's state machine
(section 4.4) for the MCU2 parser, together with cleared cursors. -/
def mcu2ParserIdle (s : Mcu2State) : Prop :=
  s.receivingData = false ∧ s.isReadingCommandHeader = false ∧
  s.mayHaveStart = false ∧ s.chbIndex = 0 ∧ s.bufferIndex = 0 ∧
  s.numBytesToRead = 0

/-! ## PI bus dispatcher (n64_pi_task.c, `n64_pi_run`)

Each memory-region branch of the outer `while (1 && !g_restart_pi_handler)`
loop runs an inner `do { ... } while (1)` that samples one 32-bit word from
the PIO FIFO per iteration and classifies it (write marker in the low bit /
read request `0` / new address).  Each inner loop is embedded as a step
function on a small state record; the sampled word is the `Nat` argument.
`g_restart_pi_handler` is passed as the `restart : Bool` argument; the SRAM
and ROM loops never read it, which the embedding reflects by ignoring it. -/

/-- Result of one inner-loop iteration: continue the region loop, leave it
because a new address word arrived (the word is carried to the outer loop's
re-classification), or leave it because the `g_restart_pi_handler` poll at
the end of the iteration saw the flag set.  `out` collects the 16-bit reply
words pushed to the PIO TX FIFO during the iteration. -/
inductive InnerStep (σ : Type) where
  | cont (s : σ) (out : List Nat)
  | newAddr (s : σ) (a : Nat)
  | restartExit (s : σ) (out : List Nat)

/-- Resulting region-loop state, whichever way the iteration ended. -/
def InnerStep.state {σ : Type} : InnerStep σ → σ
  | .cont s _ => s
  | .newAddr s _ => s
  | .restartExit s _ => s

/-- Whether the iteration left the region loop. -/
def InnerStep.exits {σ : Type} : InnerStep σ → Bool
  | .cont _ _ => false
  | .newAddr _ _ => true
  | .restartExit _ _ => true

/-- Whether the iteration left the region loop through the restart poll. -/
def InnerStep.exitsByRestart {σ : Type} : InnerStep σ → Bool
  | .restartExit _ _ => true
  | _ => false

/-- Guard of the outer dispatcher loop, `while (1 && !g_restart_pi_handler)`
(line 236): when it is false the loop ends and `n64_pi_run` tears down the
PIO state machine (lines 660-663) and returns. -/
def outerLoopGuard (restart : Bool) : Bool :=
  !restart

/-- The unused bank-folding mask function of n64_pi_task.c lines 97-102:
`(address & SRAM_SIZE_MASK) | ((address & 0xC0000) >> 3)`. -/
def resolve_sram_address (address : Nat) : Nat :=
  (address &&& 0x7FFF) ||| ((address &&& 0xC0000) >>> 3)

/-- The index into the `sram` half-word buffer actually computed by the
dispatcher's Save-RAM entry, line 308: `(last_addr & 0x7FFF) >> 1`. -/
def dispatcherSramIndex (lastAddr : Nat) : Nat :=
  (lastAddr &&& 0x7FFF) >>> 1

/-- Modelled from the spec: the Save-RAM region bounds `CART_SRAM_START`/
`CART_SRAM_END` come from `n64_defs.h`, which is not under src/.  Section 3
describes the region as a fixed range and section 4.2 as a 20-bit address
window; the values used here are the N64 PI Domain 2 Address 2 range. -/
def CART_SRAM_START : Nat := 0x08000000

/-- Modelled from the spec: upper bound of the Save-RAM region (see
`CART_SRAM_START`). -/
def CART_SRAM_END : Nat := 0x0FFFFFFF

/-- Membership in the Save-RAM region, from the dispatcher's range test
`last_addr >= CART_SRAM_START && last_addr <= CART_SRAM_END` (line 306). -/
def inSramRegion (a : Nat) : Prop :=
  CART_SRAM_START ≤ a ∧ a ≤ CART_SRAM_END

/-- State of the Save-RAM region loop (lines 306-346): the `sram` half-word
array as a function, the running half-word index `sram_addr`, the cursor
`last_addr` and the pre-fetched reply `next_word`. -/
structure SramState where
  sram : Nat → Nat
  sramAddr : Nat
  lastAddr : Nat
  nextWord : Nat

/-- Entry into the Save-RAM region branch (lines 306-309):
`sram_addr = (last_addr & 0x7FFF) >> 1; next_word = sram[sram_addr];`. -/
def sramRegionEntry (sram : Nat → Nat) (lastAddr : Nat) : SramState :=
  { sram := sram, sramAddr := dispatcherSramIndex lastAddr,
    lastAddr := lastAddr, nextWord := sram (dispatcherSramIndex lastAddr) }

/-- One iteration of the Save-RAM inner loop (lines 317-346).  A write
stores the upper half of the sampled word (truncated to `uint16_t`) at
`sram_addr++`; a read pushes the pre-fetched `next_word` and pre-fetches
`sram[++sram_addr]`; everything else breaks out.  The loop never reads
`g_restart_pi_handler`, so `restart` is ignored. -/
def sramStep (restart : Bool) (s : SramState) (addr : Nat) : InnerStep SramState :=
  if addr % 2 = 1 then
    .cont { s with sram := Function.update s.sram s.sramAddr ((addr >>> 16) % 65536),
                   sramAddr := s.sramAddr + 1,
                   lastAddr := s.lastAddr + 2 } []
  else if addr = 0 then
    .cont { s with lastAddr := s.lastAddr + 2,
                   sramAddr := s.sramAddr + 1,
                   nextWord := s.sram (s.sramAddr + 1) } [s.nextWord]
  else
    .newAddr s addr

/-- State of the Cartridge-ROM region loop (lines 347-385): the DMA target
buffer `pc64_uart_tx_buf` (half-word view), the buffer index `dma_bi` and
the cursor. -/
structure RomState where
  buf : Nat → Nat
  dmaBi : Nat
  lastAddr : Nat

/-- One iteration of the Cartridge-ROM inner loop (lines 365-385).  A read
pushes `pc64_uart_tx_buf[dma_bi++]` (and retriggers the DMA); a write is
ignored apart from advancing the cursor; everything else breaks out.  The
loop never reads `g_restart_pi_handler`. -/
def romStep (restart : Bool) (s : RomState) (addr : Nat) : InnerStep RomState :=
  if addr = 0 then
    .cont { s with dmaBi := s.dmaBi + 1, lastAddr := s.lastAddr + 2 } [s.buf s.dmaBi]
  else if addr % 2 = 1 then
    .cont { s with lastAddr := s.lastAddr + 2 } []
  else
    .newAddr s addr

/-- Modelled from the spec: `PC64_BASE_ADDRESS_LENGTH` (number of `uint16_t`
entries of `pc64_uart_tx_buf`) is defined in `pc64_regs.h`, which is not
under src/.  Section 4 requires the general-purpose transfer buffer to hold
a 512-byte SD sector and up to a 2048-byte EEPROM blob, so 1024 half-words
(2048 bytes) are used. -/
def PC64_BASE_ADDRESS_LENGTH : Nat := 1024

/-- Modelled from the spec: `swap8` (from `utils.h`, not under src/) is the
16-bit byte swap used when storing bus write data into the transfer
buffer. -/
def swap8 (v : Nat) : Nat :=
  ((v % 256) <<< 8) ||| ((v >>> 8) % 256)

/-- The buffer index computed at the top of the Peripheral-Base inner loop,
line 438: `(last_addr & (sizeof(pc64_uart_tx_buf) - 1)) >> 1` (the `sizeof`
is in bytes, twice the entry count). -/
def baseBufIndex (lastAddr : Nat) : Nat :=
  (lastAddr &&& (2 * PC64_BASE_ADDRESS_LENGTH - 1)) >>> 1

/-- State of the Peripheral-Base (PicoCart64 BASE) region loop
(lines 434-464): the transfer buffer in its half-word view and the
cursor. -/
structure BaseState where
  buf : Nat → Nat
  lastAddr : Nat

/-- One iteration of the Peripheral-Base inner loop (lines 436-464).  A
write stores `swap8(addr >> 16)` at the pre-computed buffer index; a read
pushes the buffer entry at that index; everything else breaks out.  At the
end of the iteration `g_restart_pi_handler` is polled (lines 461-463). -/
def baseStep (restart : Bool) (s : BaseState) (addr : Nat) : InnerStep BaseState :=
  let bufIndex := baseBufIndex s.lastAddr
  if addr % 2 = 1 then
    let s1 : BaseState := { s with buf := Function.update s.buf bufIndex (swap8 ((addr >>> 16) % 65536)),
                                   lastAddr := s.lastAddr + 2 }
    if restart then .restartExit s1 [] else .cont s1 []
  else if addr = 0 then
    let s1 : BaseState := { s with lastAddr := s.lastAddr + 2 }
    if restart then .restartExit s1 [s.buf bufIndex] else .cont s1 [s.buf bufIndex]
  else
    .newAddr s addr

/-- State of the Random-Number (PicoCart64 RAND) region loop
(lines 623-645).  `pc64_rand16` lives in `pc64_rand.c`, which is not under
src/; modelled from the spec as an abstract stream `rand` of 16-bit values
consumed one per read. -/
structure RandState where
  rand : Nat → Nat
  randIdx : Nat
  lastAddr : Nat

/-- One iteration of the Random-Number inner loop (lines 625-645).  A write
only advances the cursor; a read pushes the next random 16-bit value;
everything else breaks out.  `g_restart_pi_handler` is polled at the end of
the iteration (lines 642-644). -/
def randStep (restart : Bool) (s : RandState) (addr : Nat) : InnerStep RandState :=
  if addr % 2 = 1 then
    let s1 : RandState := { s with lastAddr := s.lastAddr + 2 }
    if restart then .restartExit s1 [] else .cont s1 []
  else if addr = 0 then
    let s1 : RandState := { s with randIdx := s.randIdx + 1, lastAddr := s.lastAddr + 2 }
    let w := s.rand s.randIdx % 65536
    if restart then .restartExit s1 [w] else .cont s1 [w]
  else
    .newAddr s addr

/-! ## Control-Register Block (PicoCart64 CIBASE, lines 466-610)

Register offsets and the CIBASE base address come from `pc64_regs.h`, which
is not under src/; they are modelled from the spec (section 6): MAGIC is at
offset 0x0 and the registers follow in the listed order, each 32 bits
(4 bytes) wide.  The concrete values only need to be pairwise distinct for
the `switch` statements to behave as in C. -/

/-- Modelled from the spec: base of the Control-Register Block. -/
def PC64_CIBASE_ADDRESS_START : Nat := 0x81003000

/-- Modelled from the spec: `MAGIC(0x0)` (section 6). -/
def PC64_REGISTER_MAGIC : Nat := 0x0

/-- Modelled from the spec: UART_TX register offset (section 6 order). -/
def PC64_REGISTER_UART_TX : Nat := 0x4

/-- Modelled from the spec: RAND_SEED register offset. -/
def PC64_REGISTER_RAND_SEED : Nat := 0x8

/-- Modelled from the spec: SD_BUSY register offset. -/
def PC64_REGISTER_SD_BUSY : Nat := 0xC

/-- Modelled from the spec: SD_READ_SECTOR0 register offset. -/
def PC64_REGISTER_SD_READ_SECTOR0 : Nat := 0x10

/-- Modelled from the spec: SD_READ_SECTOR1 register offset. -/
def PC64_REGISTER_SD_READ_SECTOR1 : Nat := 0x14

/-- Modelled from the spec: SD_READ_NUM_SECTORS register offset. -/
def PC64_REGISTER_SD_READ_NUM_SECTORS : Nat := 0x18

/-- Modelled from the spec: SD_SELECT_ROM register offset. -/
def PC64_REGISTER_SD_SELECT_ROM : Nat := 0x1C

/-- Modelled from the spec: SD_COMMAND register offset (`PC64_COMMAND_SD_READ`
in the source), the trigger register of section 6. -/
def PC64_COMMAND_SD_READ : Nat := 0x20

/-- Modelled from the spec: the fixed `PC64_MAGIC` constant returned by a
MAGIC read (value not fixed by the spec; only its 16-bit halves matter). -/
def PC64_MAGIC : Nat := 0xDEAD6400

/-- Modelled from the spec: inter-core FIFO message codes (from
`n64_pi_task.h`, not under src/); only their identity matters. -/
def CORE1_SEND_SD_READ_CMD : Nat := 0
/-- Modelled from the spec: FIFO code for starting a ROM load. -/
def CORE1_LOAD_NEW_ROM_CMD : Nat := 1

/-- Side effects of one CIBASE inner-loop iteration: PIO TX pushes and the
calls into the SD job manager / RNG / inter-core FIFO. -/
inductive CiEvent where
  | putWord (w : Nat)
  | fifoPush (cmd : Nat)
  | randSeed (v : Nat)
  | setSectorPart (i v : Nat)
  | setSectorCount (i v : Nat)
  | setRomSelLen (v i : Nat)
  | setRomSelection (len : Nat)
deriving DecidableEq, Repr

/-- Result of one CIBASE inner-loop iteration.  `rest` is the unconsumed
suffix of the sampled-word stream (an iteration consumes one word, or two
for the dual-half MAGIC read and the UART_TX / RAND_SEED writes).  `starve`
means the stream ran out mid-iteration. -/
inductive CibaseRes where
  | cont (lastAddr : Nat) (out : List CiEvent) (rest : List Nat)
  | newAddr (lastAddr : Nat) (a : Nat) (out : List CiEvent) (rest : List Nat)
  | restartExit (lastAddr : Nat) (out : List CiEvent) (rest : List Nat)
  | starve
deriving DecidableEq, Repr

/-- Cursor after the iteration (`d` when the stream starved). -/
def CibaseRes.addr (d : Nat) : CibaseRes → Nat
  | .cont la _ _ => la
  | .newAddr la _ _ _ => la
  | .restartExit la _ _ => la
  | .starve => d

/-- Events of the iteration. -/
def CibaseRes.events : CibaseRes → List CiEvent
  | .cont _ o _ => o
  | .newAddr _ _ o _ => o
  | .restartExit _ o _ => o
  | .starve => []

/-- Whether the iteration left the loop through the restart poll. -/
def CibaseRes.exitsByRestart : CibaseRes → Bool
  | .restartExit _ _ _ => true
  | _ => false

/-- One iteration of the CIBASE inner loop (lines 468-610) on the stream of
sampled bus words.  Faithful quirks: the interrupted MAGIC read executes
`continue`, skipping both the second `last_addr += 2` and the restart poll;
a read of an unrecognized offset pushes nothing to the PIO; the UART_TX and
RAND_SEED writes fetch the second half-word inside the handler and advance
the cursor by 4. -/
def cibaseIter (busy restart : Bool) (lastAddr : Nat) :
    List Nat → CibaseRes
  | [] => .starve
  | addr :: rest =>
    let off := lastAddr - PC64_CIBASE_ADDRESS_START
    if addr = 0 then
      -- READ (lines 472-524)
      if off = PC64_REGISTER_MAGIC then
        match rest with
        | [] => .starve
        | addr2 :: rest2 =>
          if addr2 = 0 then
            let ev := [CiEvent.putWord (PC64_MAGIC >>> 16), CiEvent.putWord (PC64_MAGIC &&& 0xFFFF)]
            if restart then .restartExit (lastAddr + 4) ev rest2
            else .cont (lastAddr + 4) ev rest2
          else
            -- `continue`: the non-zero word sampled between the two halves is
            -- discarded and the restart poll is skipped.
            .cont (lastAddr + 2) [CiEvent.putWord (PC64_MAGIC >>> 16)] rest2
      else
        let ev : List CiEvent :=
          if off = PC64_REGISTER_SD_BUSY then
            [CiEvent.putWord 0x0000]
          else if off = PC64_REGISTER_SD_BUSY + 2 then
            [CiEvent.putWord (if busy then 0x0001 else 0x0000)]
          else
            []  -- default: `next_word = 0` and no PIO push
        if restart then .restartExit (lastAddr + 2) ev rest
        else .cont (lastAddr + 2) ev rest
    else if addr % 2 = 1 then
      -- WRITE (lines 526-601)
      let writeWord := addr &&& 0xFFFF0000
      if off = PC64_REGISTER_UART_TX then
        match rest with
        | [] => .starve
        | addr2 :: rest2 =>
          -- `write_word |= addr2 >> 16`; the uart output call is commented out
          if restart then .restartExit (lastAddr + 4) [] rest2
          else .cont (lastAddr + 4) [] rest2
      else if off = PC64_REGISTER_RAND_SEED then
        match rest with
        | [] => .starve
        | addr2 :: rest2 =>
          let v := writeWord ||| (addr2 >>> 16)
          if restart then .restartExit (lastAddr + 4) [CiEvent.randSeed v] rest2
          else .cont (lastAddr + 4) [CiEvent.randSeed v] rest2
      else
        let ev : List CiEvent :=
          if off = PC64_COMMAND_SD_READ then []
          else if off = PC64_COMMAND_SD_READ + 2 then
            [CiEvent.fifoPush CORE1_SEND_SD_READ_CMD]
          else if off = PC64_REGISTER_SD_READ_SECTOR0 then
            [CiEvent.setSectorPart 0 writeWord]
          else if off = PC64_REGISTER_SD_READ_SECTOR0 + 2 then
            [CiEvent.setSectorPart 1 writeWord]
          else if off = PC64_REGISTER_SD_READ_SECTOR1 then
            [CiEvent.setSectorPart 2 writeWord]
          else if off = PC64_REGISTER_SD_READ_SECTOR1 + 2 then
            [CiEvent.setSectorPart 3 writeWord]
          else if off = PC64_REGISTER_SD_READ_NUM_SECTORS then
            [CiEvent.setSectorCount 1 writeWord]
          else if off = PC64_REGISTER_SD_READ_NUM_SECTORS + 2 then
            [CiEvent.setSectorCount 0 writeWord]
          else if off = PC64_REGISTER_SD_SELECT_ROM then
            [CiEvent.setRomSelLen writeWord 0]
          else if off = PC64_REGISTER_SD_SELECT_ROM + 2 then
            [CiEvent.setRomSelLen writeWord 1, CiEvent.setRomSelection writeWord,
             CiEvent.fifoPush CORE1_LOAD_NEW_ROM_CMD]
          else []
        if restart then .restartExit (lastAddr + 2) ev rest
        else .cont (lastAddr + 2) ev rest
    else
      .newAddr lastAddr addr [] rest

/-! ## Auxiliary definitions used by the statements below -/

/-- Repeated byte stores `buf[i] = b % 256`, `buf[i+1] = ...` as performed by
the payload-accumulation branch of the parsers. -/
def writeBytes (buf : Nat → Nat) (i : Nat) : List Nat → Nat → Nat
  | [] => buf
  | b :: bs => writeBytes (Function.update buf i (b % 256)) (i + 1) bs

/-- A concrete Save-RAM loop state used in witnesses and counterexamples. -/
def exSramState : SramState :=
  { sram := fun _ => 7, sramAddr := 3, lastAddr := 0x08000006, nextWord := 7 }

/-- A concrete Cartridge-ROM loop state used in witnesses. -/
def exRomState : RomState :=
  { buf := fun i => i + 40, dmaBi := 2, lastAddr := 0x10000200 }

/-- A concrete Peripheral-Base loop state used in witnesses. -/
def exBaseState : BaseState :=
  { buf := fun i => i + 9, lastAddr := 0x81000010 }

/-- A concrete Random-Number loop state used in witnesses. -/
def exRandState : RandState :=
  { rand := fun i => i + 100, randIdx := 5, lastAddr := 0x81001008 }

/-! # Theorems -/

/-! ## Arithmetic helpers -/

theorem shiftLeft8_or_eq_add (a c : Nat) (hc : c < 256) :
    (a <<< 8) ||| c = a * 256 + c := by
  have h256 : (256 : Nat) = 2 ^ 8 := by norm_num
  rw [Nat.shiftLeft_eq, h256]
  refine Nat.eq_of_testBit_eq fun j => ?_
  rw [Nat.testBit_lor, Nat.mul_comm, Nat.testBit_mul_pow_two_add a (by simpa [h256] using hc) j,
      Nat.testBit_mul_pow_two]
  by_cases hj : j < 8
  · simp [hj, Nat.not_le.mpr hj]
  · have hcj : Nat.testBit c j = false :=
      Nat.testBit_eq_false_of_lt (lt_of_lt_of_le hc (by
        rw [h256]; exact Nat.pow_le_pow_right (by norm_num) (Nat.not_lt.mp hj)))
    simp [hj, Nat.not_lt.mp hj, hcj]

theorem combine16_lt (a c : Nat) (ha : a < 256) (hc : c < 256) :
    (a <<< 8) ||| c < 65536 := by
  rw [shiftLeft8_or_eq_add a c hc]; omega

/-! ## MCU2 parser: single-step characterizations -/

theorem mcu2Run_nil (s : Mcu2State) : mcu2Run s [] = s := rfl

theorem mcu2Run_cons (s : Mcu2State) (b : Nat) (bs : List Nat) :
    mcu2Run s (b :: bs) = mcu2Run (mcu2Step s b) bs := rfl

theorem mcu2Step_first (s : Mcu2State)
    (h1 : s.receivingData = false) (h2 : s.isReadingCommandHeader = false) :
    mcu2Step s COMMAND_START = { s with mayHaveStart := true } := by
  simp [mcu2Step, COMMAND_START, h1, h2]

theorem mcu2Step_second (s : Mcu2State)
    (h1 : s.receivingData = false) (h2 : s.isReadingCommandHeader = false)
    (h3 : s.mayHaveStart = true) :
    mcu2Step s COMMAND_START2 = { s with isReadingCommandHeader := true } := by
  simp [mcu2Step, COMMAND_START, COMMAND_START2, h1, h2, h3]

theorem mcu2Step_idle_discard (s : Mcu2State) (b : Nat)
    (h1 : s.receivingData = false) (h2 : s.isReadingCommandHeader = false)
    (h3 : s.mayHaveStart = false) (hb : b % 256 ≠ COMMAND_START) :
    mcu2Step s b = s := by
  simp [mcu2Step, h1, h2, h3, hb]

theorem mcu2Step_gotFirst_discard (s : Mcu2State) (b : Nat)
    (h1 : s.receivingData = false) (h2 : s.isReadingCommandHeader = false)
    (hb : b % 256 ≠ COMMAND_START) (hb2 : b % 256 ≠ COMMAND_START2) :
    mcu2Step s b = s := by
  simp [mcu2Step, h1, h2, hb, hb2]

theorem mcu2Step_header0 (s : Mcu2State) (c : Nat)
    (h1 : s.receivingData = false) (h2 : s.isReadingCommandHeader = true)
    (h3 : s.chbIndex = 0) :
    mcu2Step s c = { s with chb0 := c % 256, chbIndex := 1 } := by
  simp [mcu2Step, writeHeaderByte2, COMMAND_HEADER_LENGTH, h1, h2, h3]

theorem mcu2Step_header1 (s : Mcu2State) (c : Nat)
    (h1 : s.receivingData = false) (h2 : s.isReadingCommandHeader = true)
    (h3 : s.chbIndex = 1) :
    mcu2Step s c = { s with chb1 := c % 256, chbIndex := 2 } := by
  simp [mcu2Step, writeHeaderByte2, COMMAND_HEADER_LENGTH, h1, h2, h3]

theorem mcu2Step_header2 (s : Mcu2State) (c : Nat)
    (h1 : s.receivingData = false) (h2 : s.isReadingCommandHeader = true)
    (h3 : s.chbIndex = 2) :
    mcu2Step s c = { s with chb2 := c % 256, chbIndex := 0,
                            isReadingCommandHeader := false, receivingData := true,
                            numBytesToRead := ((s.chb1 <<< 8) ||| (c % 256)) % 65536 } := by
  simp [mcu2Step, writeHeaderByte2, COMMAND_HEADER_LENGTH, h1, h2, h3]

theorem mcu2Step_payload (s : Mcu2State) (b : Nat)
    (h1 : s.receivingData = true) (h2 : s.bufferIndex + 1 < s.numBytesToRead) :
    mcu2Step s b = { s with buf := Function.update s.buf s.bufferIndex (b % 256),
                            bufferIndex := s.bufferIndex + 1 } := by
  simp [mcu2Step, h1, Nat.not_le.mpr h2]

theorem mcu2Step_payload_dispatch (s : Mcu2State) (b : Nat)
    (h1 : s.receivingData = true) (h2 : s.numBytesToRead ≤ s.bufferIndex + 1) :
    mcu2Step s b
      = mcu2Dispatch { s with buf := Function.update s.buf s.bufferIndex (b % 256),
                              bufferIndex := 0 } := by
  simp [mcu2Step, h1, h2]

theorem writeBytes_concat : ∀ (ys : List Nat) (buf : Nat → Nat) (i z : Nat),
    writeBytes buf i (ys ++ [z])
      = Function.update (writeBytes buf i ys) (i + ys.length) (z % 256)
  | [], buf, i, z => by simp [writeBytes]
  | y :: ys, buf, i, z => by
    simp only [List.cons_append, writeBytes, List.length_cons]
    rw [show i + (ys.length + 1) = (i + 1) + ys.length from by omega]
    exact writeBytes_concat ys (Function.update buf i (y % 256)) (i + 1) z

theorem mcu2Run_stream : ∀ (bs : List Nat) (s : Mcu2State) (rest : List Nat),
    s.receivingData = true →
    s.bufferIndex + bs.length < s.numBytesToRead →
    mcu2Run s (bs ++ rest)
      = mcu2Run { s with buf := writeBytes s.buf s.bufferIndex bs,
                         bufferIndex := s.bufferIndex + bs.length } rest
  | [], s, rest, _, _ => rfl
  | b :: bs, s, rest, h1, h2 => by
    have hlt : s.bufferIndex + 1 < s.numBytesToRead := by
      simp only [List.length_cons] at h2; omega
    have harith : s.bufferIndex + (b :: bs).length = (s.bufferIndex + 1) + bs.length := by
      simp only [List.length_cons]; omega
    rw [List.cons_append, mcu2Run_cons, mcu2Step_payload s b h1 hlt, harith]
    exact mcu2Run_stream bs
      { s with buf := Function.update s.buf s.bufferIndex (b % 256),
               bufferIndex := s.bufferIndex + 1 } rest h1
      (by show (s.bufferIndex + 1) + bs.length < s.numBytesToRead
          simp only [List.length_cons] at h2; omega)

theorem mcu2Dispatch_dispatches (s : Mcu2State) :
    (mcu2Dispatch s).dispatches
      = s.dispatches ++ [(s.chb0, (List.range s.numBytesToRead).map s.buf)] := by
  simp only [mcu2Dispatch]
  split <;> (try split) <;> (try split) <;> rfl

theorem mcu2Dispatch_parser_reset (s : Mcu2State) :
    (mcu2Dispatch s).receivingData = false ∧
    (mcu2Dispatch s).isReadingCommandHeader = s.isReadingCommandHeader ∧
    (mcu2Dispatch s).mayHaveStart = false ∧
    (mcu2Dispatch s).chbIndex = s.chbIndex ∧
    (mcu2Dispatch s).bufferIndex = 0 ∧
    (mcu2Dispatch s).numBytesToRead = 0 := by
  simp only [mcu2Dispatch]
  refine ⟨?_, ?_, ?_, ?_, ?_, ?_⟩ <;>
    first
      | trivial
      | (split <;> (try split) <;> (try split) <;> rfl)

/-- Processing of one complete non-empty command frame by the MCU2 parser,
from the sentinel bytes through header, payload accumulation and dispatch:
the fundamental lemma behind the round-trip property. -/
theorem mcu2_frame (s : Mcu2State) (c b3 b4 : Nat) (pay rest : List Nat)
    (hrec : s.receivingData = false) (hhdr : s.isReadingCommandHeader = false)
    (hidx : s.chbIndex = 0) (hbuf : s.bufferIndex = 0)
    (hlen : (((b3 % 256) <<< 8) ||| (b4 % 256)) % 65536 = pay.length)
    (hpos : 0 < pay.length) :
    mcu2Run s (COMMAND_START :: COMMAND_START2 :: c :: b3 :: b4 :: (pay ++ rest))
      = mcu2Run (mcu2Dispatch
          { s with mayHaveStart := true, isReadingCommandHeader := false,
                   receivingData := true,
                   chb0 := c % 256, chb1 := b3 % 256, chb2 := b4 % 256,
                   chbIndex := 0, numBytesToRead := pay.length,
                   buf := writeBytes s.buf 0 pay, bufferIndex := 0 }) rest := by
  obtain ⟨ys, z, rfl⟩ : ∃ ys z, pay = ys ++ [z] := by
    rcases List.eq_nil_or_concat pay with h | ⟨ys, z, h⟩
    · exact absurd (h ▸ hpos) (by simp)
    · exact ⟨ys, z, h.trans (List.concat_eq_append ys z)⟩
  have e1 : mcu2Run s (COMMAND_START :: COMMAND_START2 :: c :: b3 :: b4 :: ((ys ++ [z]) ++ rest))
      = mcu2Run { s with mayHaveStart := true }
          (COMMAND_START2 :: c :: b3 :: b4 :: ((ys ++ [z]) ++ rest)) := by
    rw [mcu2Run_cons, mcu2Step_first s hrec hhdr]
  have e2 : mcu2Run { s with mayHaveStart := true }
        (COMMAND_START2 :: c :: b3 :: b4 :: ((ys ++ [z]) ++ rest))
      = mcu2Run { s with mayHaveStart := true, isReadingCommandHeader := true }
          (c :: b3 :: b4 :: ((ys ++ [z]) ++ rest)) := by
    rw [mcu2Run_cons, mcu2Step_second { s with mayHaveStart := true } hrec hhdr rfl]
  have e3 : mcu2Run { s with mayHaveStart := true, isReadingCommandHeader := true }
        (c :: b3 :: b4 :: ((ys ++ [z]) ++ rest))
      = mcu2Run { s with mayHaveStart := true, isReadingCommandHeader := true,
                         chb0 := c % 256, chbIndex := 1 }
          (b3 :: b4 :: ((ys ++ [z]) ++ rest)) := by
    rw [mcu2Run_cons,
        mcu2Step_header0 { s with mayHaveStart := true, isReadingCommandHeader := true } c
          hrec rfl hidx]
  have e4 : mcu2Run { s with mayHaveStart := true, isReadingCommandHeader := true,
                             chb0 := c % 256, chbIndex := 1 }
        (b3 :: b4 :: ((ys ++ [z]) ++ rest))
      = mcu2Run { s with mayHaveStart := true, isReadingCommandHeader := true,
                         chb0 := c % 256, chb1 := b3 % 256, chbIndex := 2 }
          (b4 :: ((ys ++ [z]) ++ rest)) := by
    rw [mcu2Run_cons,
        mcu2Step_header1 { s with mayHaveStart := true, isReadingCommandHeader := true,
                                  chb0 := c % 256, chbIndex := 1 } b3 hrec rfl rfl]
  have e5 : mcu2Run { s with mayHaveStart := true, isReadingCommandHeader := true,
                             chb0 := c % 256, chb1 := b3 % 256, chbIndex := 2 }
        (b4 :: ((ys ++ [z]) ++ rest))
      = mcu2Run { s with mayHaveStart := true, isReadingCommandHeader := false,
                         receivingData := true,
                         chb0 := c % 256, chb1 := b3 % 256, chb2 := b4 % 256,
                         chbIndex := 0, numBytesToRead := (ys ++ [z]).length }
          ((ys ++ [z]) ++ rest) := by
    rw [mcu2Run_cons,
        mcu2Step_header2 { s with mayHaveStart := true, isReadingCommandHeader := true,
                                  chb0 := c % 256, chb1 := b3 % 256, chbIndex := 2 } b4
          hrec rfl rfl,
        hlen]
  have e6a : mcu2Run { s with mayHaveStart := true, isReadingCommandHeader := false,
                              receivingData := true,
                              chb0 := c % 256, chb1 := b3 % 256, chb2 := b4 % 256,
                              chbIndex := 0, numBytesToRead := (ys ++ [z]).length }
        ((ys ++ [z]) ++ rest)
      = mcu2Run { s with mayHaveStart := true, isReadingCommandHeader := false,
                         receivingData := true,
                         chb0 := c % 256, chb1 := b3 % 256, chb2 := b4 % 256,
                         chbIndex := 0, numBytesToRead := (ys ++ [z]).length }
          (ys ++ (z :: rest)) := by
    rw [List.append_assoc, List.singleton_append]
  have e6b : mcu2Run { s with mayHaveStart := true, isReadingCommandHeader := false,
                              receivingData := true,
                              chb0 := c % 256, chb1 := b3 % 256, chb2 := b4 % 256,
                              chbIndex := 0, numBytesToRead := (ys ++ [z]).length }
        (ys ++ (z :: rest))
      = mcu2Run { s with mayHaveStart := true, isReadingCommandHeader := false,
                         receivingData := true,
                         chb0 := c % 256, chb1 := b3 % 256, chb2 := b4 % 256,
                         chbIndex := 0, numBytesToRead := (ys ++ [z]).length,
                         buf := writeBytes s.buf s.bufferIndex ys,
                         bufferIndex := s.bufferIndex + ys.length }
          (z :: rest) :=
    mcu2Run_stream ys _ (z :: rest) rfl
      (by show s.bufferIndex + ys.length < (ys ++ [z]).length
          simp only [hbuf, List.length_append, List.length_singleton]; omega)
  have e6c : mcu2Run { s with mayHaveStart := true, isReadingCommandHeader := false,
                              receivingData := true,
                              chb0 := c % 256, chb1 := b3 % 256, chb2 := b4 % 256,
                              chbIndex := 0, numBytesToRead := (ys ++ [z]).length,
                              buf := writeBytes s.buf s.bufferIndex ys,
                              bufferIndex := s.bufferIndex + ys.length }
        (z :: rest)
      = mcu2Run (mcu2Dispatch
          { s with mayHaveStart := true, isReadingCommandHeader := false,
                   receivingData := true,
                   chb0 := c % 256, chb1 := b3 % 256, chb2 := b4 % 256,
                   chbIndex := 0, numBytesToRead := (ys ++ [z]).length,
                   buf := writeBytes s.buf s.bufferIndex (ys ++ [z]),
                   bufferIndex := 0 }) rest := by
    rw [mcu2Run_cons,
        mcu2Step_payload_dispatch
          { s with mayHaveStart := true, isReadingCommandHeader := false,
                   receivingData := true,
                   chb0 := c % 256, chb1 := b3 % 256, chb2 := b4 % 256,
                   chbIndex := 0, numBytesToRead := (ys ++ [z]).length,
                   buf := writeBytes s.buf s.bufferIndex ys,
                   bufferIndex := s.bufferIndex + ys.length } z rfl
          (by show (ys ++ [z]).length ≤ (s.bufferIndex + ys.length) + 1
              simp only [hbuf, List.length_append, List.length_singleton]; omega),
        ← writeBytes_concat]
  have H := e1.trans (e2.trans (e3.trans (e4.trans (e5.trans (e6a.trans (e6b.trans e6c))))))
  rw [hbuf] at H
  exact H

/-- Claim C6 (confirmed): the byte sequence emitted by
`pc64_send_sd_read_command` — sentinel `0xDE 0xAD`, command `0x72`,
big-endian length 12, then the 12 payload bytes — when fed byte-by-byte into
`mcu2_process_rx_buffer` starting from its idle state, causes exactly one
dispatch, whose accumulated payload buffer holds those 12 bytes unchanged,
and leaves the parser back in its idle state. -/
theorem c6_sd_read_roundtrip (r0 r1 r2 r3 : Nat) :
    (mcu2Run mcu2Idle (sdReadCommandBytes r0 r1 r2 r3)).dispatches
      = [(COMMAND_SD_READ,
          [(r0 >>> 24) % 256, (r0 >>> 16) % 256,
           (r1 >>> 24) % 256, (r1 >>> 16) % 256,
           (r2 >>> 24) % 256, (r2 >>> 16) % 256,
           (r3 >>> 24) % 256, (r3 >>> 16) % 256,
           0, 0, 0, 1])]
    ∧ mcu2ParserIdle (mcu2Run mcu2Idle (sdReadCommandBytes r0 r1 r2 r3)) := by
  have hb : sdReadCommandBytes r0 r1 r2 r3
      = COMMAND_START :: COMMAND_START2 :: COMMAND_SD_READ :: 0 :: 12 ::
        ([(r0 >>> 24) % 256, (r0 >>> 16) % 256,
          (r1 >>> 24) % 256, (r1 >>> 16) % 256,
          (r2 >>> 24) % 256, (r2 >>> 16) % 256,
          (r3 >>> 24) % 256, (r3 >>> 16) % 256,
          0, 0, 0, 1] ++ []) := rfl
  have hf := mcu2_frame mcu2Idle COMMAND_SD_READ 0 12
      [(r0 >>> 24) % 256, (r0 >>> 16) % 256,
       (r1 >>> 24) % 256, (r1 >>> 16) % 256,
       (r2 >>> 24) % 256, (r2 >>> 16) % 256,
       (r3 >>> 24) % 256, (r3 >>> 16) % 256,
       0, 0, 0, 1] []
      rfl rfl rfl rfl rfl (by simp)
  rw [hb, hf, mcu2Run_nil]
  constructor
  · rw [mcu2Dispatch_dispatches]
    simp [mcu2Idle, writeBytes, Function.update, List.range_succ,
          Nat.mod_mod_of_dvd, COMMAND_SD_READ]
  · have h := mcu2Dispatch_parser_reset
      { mcu2Idle with mayHaveStart := true, isReadingCommandHeader := false,
                      receivingData := true,
                      chb0 := COMMAND_SD_READ % 256, chb1 := 0 % 256, chb2 := 12 % 256,
                      chbIndex := 0,
                      numBytesToRead :=
                        ([(r0 >>> 24) % 256, (r0 >>> 16) % 256,
                          (r1 >>> 24) % 256, (r1 >>> 16) % 256,
                          (r2 >>> 24) % 256, (r2 >>> 16) % 256,
                          (r3 >>> 24) % 256, (r3 >>> 16) % 256,
                          0, 0, 0, 1] : List Nat).length,
                      buf := writeBytes mcu2Idle.buf 0
                        [(r0 >>> 24) % 256, (r0 >>> 16) % 256,
                         (r1 >>> 24) % 256, (r1 >>> 16) % 256,
                         (r2 >>> 24) % 256, (r2 >>> 16) % 256,
                         (r3 >>> 24) % 256, (r3 >>> 16) % 256,
                         0, 0, 0, 1],
                      bufferIndex := 0 }
    exact ⟨h.1, h.2.1, h.2.2.1, h.2.2.2.1, h.2.2.2.2.1, h.2.2.2.2.2⟩

/-! ## MCU1 parser: single-step characterizations (romLoading mode) -/

theorem mcu1Run_nil (s : Mcu1State) : mcu1Run s [] = s := rfl

theorem mcu1Run_cons (s : Mcu1State) (v : Nat) (bs : List Nat) :
    mcu1Run s (v :: bs)
      = if (mcu1Step s v).2 then (mcu1Step s v).1 else mcu1Run (mcu1Step s v).1 bs := rfl

theorem mcu1Step_first (s : Mcu1State)
    (h0 : s.romLoading = true) (h1 : s.receivingData = false)
    (h2 : s.isReadingCommandHeader = false) :
    mcu1Step s COMMAND_START = ({ s with mayHaveStart := true }, false) := by
  simp [mcu1Step, COMMAND_START, h0, h1, h2]

theorem mcu1Step_second (s : Mcu1State)
    (h0 : s.romLoading = true) (h1 : s.receivingData = false)
    (h2 : s.isReadingCommandHeader = false) (h3 : s.mayHaveStart = true) :
    mcu1Step s COMMAND_START2 = ({ s with isReadingCommandHeader := true }, false) := by
  simp [mcu1Step, COMMAND_START, COMMAND_START2, h0, h1, h2, h3]

theorem mcu1Step_idle_discard (s : Mcu1State) (b : Nat)
    (h0 : s.romLoading = true) (h1 : s.receivingData = false)
    (h2 : s.isReadingCommandHeader = false) (h3 : s.mayHaveStart = false)
    (hb : b % 256 ≠ COMMAND_START) :
    mcu1Step s b = (s, false) := by
  simp [mcu1Step, h0, h1, h2, h3, hb]

theorem mcu1Step_gotFirst_discard (s : Mcu1State) (b : Nat)
    (h0 : s.romLoading = true) (h1 : s.receivingData = false)
    (h2 : s.isReadingCommandHeader = false)
    (hb : b % 256 ≠ COMMAND_START) (hb2 : b % 256 ≠ COMMAND_START2) :
    mcu1Step s b = (s, false) := by
  simp [mcu1Step, h0, h1, h2, hb, hb2]

theorem mcu1Step_header0 (s : Mcu1State) (c : Nat)
    (h0 : s.romLoading = true) (h1 : s.receivingData = false)
    (h2 : s.isReadingCommandHeader = true) (h3 : s.chbIndex = 0) :
    mcu1Step s c = ({ s with chb0 := c % 256, chbIndex := 1 }, false) := by
  simp [mcu1Step, writeHeaderByte, COMMAND_HEADER_LENGTH, h0, h1, h2, h3]

theorem mcu1Step_header1 (s : Mcu1State) (c : Nat)
    (h0 : s.romLoading = true) (h1 : s.receivingData = false)
    (h2 : s.isReadingCommandHeader = true) (h3 : s.chbIndex = 1) :
    mcu1Step s c = ({ s with chb1 := c % 256, chbIndex := 2 }, false) := by
  simp [mcu1Step, writeHeaderByte, COMMAND_HEADER_LENGTH, h0, h1, h2, h3]

theorem mcu1Step_header2_zero (s : Mcu1State) (c : Nat)
    (h0 : s.romLoading = true) (h1 : s.receivingData = false)
    (h2 : s.isReadingCommandHeader = true) (h3 : s.chbIndex = 2)
    (hz : ((s.chb1 <<< 8) ||| (c % 256)) % 65536 = 0) :
    mcu1Step s c
      = (mcu1Dispatch { s with chb2 := c % 256, chbIndex := 0,
                               isReadingCommandHeader := false,
                               numBytesToRead := 0, bufferIndex := 0 }, false) := by
  simp [mcu1Step, writeHeaderByte, COMMAND_HEADER_LENGTH, h0, h1, h2, h3, hz]

theorem mcu1Step_header2_pos (s : Mcu1State) (c : Nat)
    (h0 : s.romLoading = true) (h1 : s.receivingData = false)
    (h2 : s.isReadingCommandHeader = true) (h3 : s.chbIndex = 2)
    (hz : ((s.chb1 <<< 8) ||| (c % 256)) % 65536 ≠ 0) :
    mcu1Step s c
      = ({ s with chb2 := c % 256, chbIndex := 0,
                  isReadingCommandHeader := false,
                  numBytesToRead := ((s.chb1 <<< 8) ||| (c % 256)) % 65536,
                  receivingData := true }, false) := by
  simp [mcu1Step, writeHeaderByte, COMMAND_HEADER_LENGTH, h0, h1, h2, h3, hz]

theorem mcu1Dispatch_dispatches (s : Mcu1State) :
    (mcu1Dispatch s).dispatches = s.dispatches ++ [s.chb0] := by
  simp only [mcu1Dispatch]
  split <;> (try split) <;> (try split) <;> rfl

theorem mcu1Dispatch_sdIsBusy (s : Mcu1State) :
    (mcu1Dispatch s).sdIsBusy = s.sdIsBusy := by
  simp only [mcu1Dispatch]
  split <;> (try split) <;> (try split) <;> rfl

theorem mcu1Dispatch_rom_loaded (s : Mcu1State) (h : s.chb0 = COMMAND_ROM_LOADED) :
    (mcu1Dispatch s).romLoading = false ∧ (mcu1Dispatch s).sendDataReady = true := by
  simp [mcu1Dispatch, h, COMMAND_ROM_LOADED, COMMAND_SET_EEPROM_TYPE,
        COMMAND_LOAD_BACKUP_EEPROM]

theorem mcu1Step_sdIsBusy (s : Mcu1State) (v : Nat) :
    ((mcu1Step s v).1).sdIsBusy = s.sdIsBusy := by
  simp only [mcu1Step]
  repeat' split
  all_goals simp_all [mcu1Dispatch, writeHeaderByte, storeWord16]
  all_goals (repeat' split) <;> rfl

theorem mcu1Run_sdIsBusy (bs : List Nat) : ∀ (s : Mcu1State),
    (mcu1Run s bs).sdIsBusy = s.sdIsBusy := by
  induction bs with
  | nil => intro s; rfl
  | cons v rest ih =>
    intro s
    rw [mcu1Run_cons]
    by_cases h : (mcu1Step s v).2 = true
    · rw [if_pos h]
      exact mcu1Step_sdIsBusy s v
    · rw [if_neg h, ih]
      exact mcu1Step_sdIsBusy s v

/-- Run of a complete zero-length frame (sentinel, command, length `0x0000`)
through the MCU1 parser in ROM-loading mode: the dispatch fires on the third
header byte, the fifth byte of the frame. -/
theorem mcu1_len0_frame (s : Mcu1State) (c : Nat)
    (h0 : s.romLoading = true) (h1 : s.receivingData = false)
    (h2 : s.isReadingCommandHeader = false) (h3 : s.chbIndex = 0) :
    mcu1Run s [COMMAND_START, COMMAND_START2, c, 0x00, 0x00]
      = mcu1Dispatch { s with mayHaveStart := true, isReadingCommandHeader := false,
                              chb0 := c % 256, chb1 := 0, chb2 := 0, chbIndex := 0,
                              numBytesToRead := 0, bufferIndex := 0 } := by
  rw [mcu1Run_cons, mcu1Step_first s h0 h1 h2]
  rw [if_neg (by simp)]
  rw [mcu1Run_cons, mcu1Step_second { s with mayHaveStart := true } h0 h1 h2 rfl]
  rw [if_neg (by simp)]
  rw [mcu1Run_cons,
      mcu1Step_header0 { s with mayHaveStart := true, isReadingCommandHeader := true } c
        h0 h1 rfl h3]
  rw [if_neg (by simp)]
  rw [mcu1Run_cons,
      mcu1Step_header1 { s with mayHaveStart := true, isReadingCommandHeader := true,
                                chb0 := c % 256, chbIndex := 1 } 0x00 h0 h1 rfl rfl]
  rw [if_neg (by simp)]
  rw [mcu1Run_cons,
      mcu1Step_header2_zero { s with mayHaveStart := true, isReadingCommandHeader := true,
                                     chb0 := c % 256, chb1 := 0x00 % 256, chbIndex := 2 } 0x00
        h0 h1 rfl rfl
        (by show (((0x00 % 256 : Nat) <<< 8) ||| (0x00 % 256)) % 65536 = 0
            decide)]
  rw [if_neg (by simp)]
  rw [mcu1Run_nil]

/-- Run of the first four bytes of a zero-length frame through the MCU1
parser: no dispatch has happened yet (the header is still incomplete). -/
theorem mcu1_len0_frame_front (s : Mcu1State) (c : Nat)
    (h0 : s.romLoading = true) (h1 : s.receivingData = false)
    (h2 : s.isReadingCommandHeader = false) (h3 : s.chbIndex = 0) :
    mcu1Run s [COMMAND_START, COMMAND_START2, c, 0x00]
      = { s with mayHaveStart := true, isReadingCommandHeader := true,
                 chb0 := c % 256, chb1 := 0, chbIndex := 2 } := by
  rw [mcu1Run_cons, mcu1Step_first s h0 h1 h2]
  rw [if_neg (by simp)]
  rw [mcu1Run_cons, mcu1Step_second { s with mayHaveStart := true } h0 h1 h2 rfl]
  rw [if_neg (by simp)]
  rw [mcu1Run_cons,
      mcu1Step_header0 { s with mayHaveStart := true, isReadingCommandHeader := true } c
        h0 h1 rfl h3]
  rw [if_neg (by simp)]
  rw [mcu1Run_cons,
      mcu1Step_header1 { s with mayHaveStart := true, isReadingCommandHeader := true,
                                chb0 := c % 256, chbIndex := 1 } 0x00 h0 h1 rfl rfl]
  rw [if_neg (by simp)]
  rw [mcu1Run_nil]

/-- Run of a complete zero-length frame through the MCU2 parser: after the
third header byte the parser is merely waiting in the payload state; no
dispatch has fired. -/
theorem mcu2_len0_pending (s : Mcu2State) (c : Nat)
    (h1 : s.receivingData = false) (h2 : s.isReadingCommandHeader = false)
    (h3 : s.chbIndex = 0) :
    mcu2Run s [COMMAND_START, COMMAND_START2, c, 0x00, 0x00]
      = { s with mayHaveStart := true, isReadingCommandHeader := false,
                 receivingData := true,
                 chb0 := c % 256, chb1 := 0, chb2 := 0, chbIndex := 0,
                 numBytesToRead := 0 } := by
  rw [mcu2Run_cons, mcu2Step_first s h1 h2]
  rw [mcu2Run_cons, mcu2Step_second { s with mayHaveStart := true } h1 h2 rfl]
  rw [mcu2Run_cons,
      mcu2Step_header0 { s with mayHaveStart := true, isReadingCommandHeader := true } c
        h1 rfl h3]
  rw [mcu2Run_cons,
      mcu2Step_header1 { s with mayHaveStart := true, isReadingCommandHeader := true,
                                chb0 := c % 256, chbIndex := 1 } 0x00 h1 rfl rfl]
  rw [mcu2Run_cons,
      mcu2Step_header2 { s with mayHaveStart := true, isReadingCommandHeader := true,
                                chb0 := c % 256, chb1 := 0x00 % 256, chbIndex := 2 } 0x00
        h1 rfl rfl]
  rw [mcu2Run_nil]
  simp

/-- The MCU2 parser dispatches a zero-length frame only after one further
byte arrives; that byte is stored into the shared buffer before dispatch. -/
theorem mcu2_len0_dispatch (s : Mcu2State) (c b : Nat)
    (h1 : s.receivingData = false) (h2 : s.isReadingCommandHeader = false)
    (h3 : s.chbIndex = 0) :
    mcu2Run s [COMMAND_START, COMMAND_START2, c, 0x00, 0x00, b]
      = mcu2Dispatch
          { s with mayHaveStart := true, isReadingCommandHeader := false,
                   receivingData := true,
                   chb0 := c % 256, chb1 := 0, chb2 := 0, chbIndex := 0,
                   numBytesToRead := 0,
                   buf := Function.update s.buf s.bufferIndex (b % 256),
                   bufferIndex := 0 } := by
  have happ : mcu2Run s [COMMAND_START, COMMAND_START2, c, 0x00, 0x00, b]
      = mcu2Run (mcu2Run s [COMMAND_START, COMMAND_START2, c, 0x00, 0x00]) [b] := rfl
  rw [happ, mcu2_len0_pending s c h1 h2 h3]
  rw [mcu2Run_cons,
      mcu2Step_payload_dispatch
        { s with mayHaveStart := true, isReadingCommandHeader := false,
                 receivingData := true,
                 chb0 := c % 256, chb1 := 0, chb2 := 0, chbIndex := 0,
                 numBytesToRead := 0 } b rfl (Nat.zero_le _)]
  rw [mcu2Run_nil]

/-- Claim C4 (corrected).  The claim asserts that both parsers dispatch a
zero-length frame immediately after the third header byte.  This holds for
`mcu1_process_rx_buffer` (explicit `command_numBytesToRead == 0` special
case), but `mcu2_process_rx_buffer` has no such case: it always enters the
payload state, and a zero-length frame is dispatched only after one further
byte is consumed.  This theorem states the corrected behavior of both
parsers. -/
theorem c4_len0_dispatch :
    (∀ (s : Mcu1State) (c : Nat),
       s.romLoading = true → s.receivingData = false →
       s.isReadingCommandHeader = false → s.chbIndex = 0 →
       (mcu1Run s [COMMAND_START, COMMAND_START2, c, 0x00, 0x00]).dispatches
           = s.dispatches ++ [c % 256] ∧
       (mcu1Run s [COMMAND_START, COMMAND_START2, c, 0x00]).dispatches
           = s.dispatches) ∧
    (∀ (s : Mcu2State) (c b : Nat),
       s.receivingData = false → s.isReadingCommandHeader = false →
       s.chbIndex = 0 →
       (mcu2Run s [COMMAND_START, COMMAND_START2, c, 0x00, 0x00]).dispatches
           = s.dispatches ∧
       (mcu2Run s [COMMAND_START, COMMAND_START2, c, 0x00, 0x00]).receivingData = true ∧
       (mcu2Run s [COMMAND_START, COMMAND_START2, c, 0x00, 0x00, b]).dispatches
           = s.dispatches ++ [(c % 256, [])]) := by
  constructor
  · intro s c h0 h1 h2 h3
    constructor
    · rw [mcu1_len0_frame s c h0 h1 h2 h3, mcu1Dispatch_dispatches]
    · rw [mcu1_len0_frame_front s c h0 h1 h2 h3]
  · intro s c b h1 h2 h3
    refine ⟨?_, ?_, ?_⟩
    · rw [mcu2_len0_pending s c h1 h2 h3]
    · rw [mcu2_len0_pending s c h1 h2 h3]
    · rw [mcu2_len0_dispatch s c b h1 h2 h3, mcu2Dispatch_dispatches]
      simp

/-- Claim C4, counterexample to the literal claim: the complete zero-length
frame `DE AD 72 00 00` fed to `mcu2_process_rx_buffer` from idle produces NO
dispatch (the ghost dispatch log stays empty) and leaves the parser waiting
in the payload state. -/
theorem c4_counterexample :
    (mcu2Run mcu2Idle [0xDE, 0xAD, 0x72, 0x00, 0x00]).dispatches = [] ∧
    (mcu2Run mcu2Idle [0xDE, 0xAD, 0x72, 0x00, 0x00]).receivingData = true := by
  decide

/-- Claim C4, witness: the corrected theorem evaluated at concrete inputs. -/
theorem c4_witness :
    (mcu1Run { mcu1Idle with romLoading := true }
        [0xDE, 0xAD, 0xC6, 0x00, 0x00]).dispatches = [0xC6] ∧
    (mcu2Run mcu2Idle [0xDE, 0xAD, 0x72, 0x00, 0x00, 0x55]).dispatches
        = [(0x72, [])] :=
  ⟨(c4_len0_dispatch.1 { mcu1Idle with romLoading := true } 0xC6 rfl rfl rfl rfl).1,
   (c4_len0_dispatch.2 mcu2Idle 0x72 0x55 rfl rfl rfl).2.2⟩

/-- Claim C5, counterexample to the literal claim: after the malformed
sentinel `DE 00` the MCU2 parser is NOT left in the IDLE state: the
`mayHaveStart` flag is still set (the GOT_FIRST state), so a later lone `AD`
byte would continue into the header.  (No dispatch is triggered, as the
claim also says.) -/
theorem c5_counterexample :
    (mcu2Run mcu2Idle [0xDE, 0x00]).dispatches = [] ∧
    (mcu2Run mcu2Idle [0xDE, 0x00]).mayHaveStart = true ∧
    (mcu2Run mcu2Idle [0xDE, 0x00, 0xAD]).isReadingCommandHeader = true := by
  decide

/-- Claim C5 (corrected): a malformed sentinel `0xDE b` (`b` neither `0xAD`
nor `0xDE`) triggers no dispatch, but leaves the parser in GOT_FIRST
(`mayHaveStart` set), not IDLE; bytes that match no expected transition
while in IDLE or GOT_FIRST are discarded without any state change, on both
parsers. -/
theorem c5_malformed_sentinel :
    (∀ (s : Mcu2State) (b : Nat),
       s.receivingData = false → s.isReadingCommandHeader = false →
       s.mayHaveStart = false → b % 256 ≠ COMMAND_START →
       mcu2Step s b = s) ∧
    (∀ (s : Mcu2State) (b : Nat),
       s.receivingData = false → s.isReadingCommandHeader = false →
       b % 256 ≠ COMMAND_START → b % 256 ≠ COMMAND_START2 →
       mcu2Step s b = s) ∧
    (∀ (s : Mcu2State) (b : Nat),
       s.receivingData = false → s.isReadingCommandHeader = false →
       b % 256 ≠ COMMAND_START → b % 256 ≠ COMMAND_START2 →
       mcu2Run s [COMMAND_START, b] = { s with mayHaveStart := true }) ∧
    (∀ (s : Mcu1State) (b : Nat),
       s.romLoading = true → s.receivingData = false →
       s.isReadingCommandHeader = false → s.mayHaveStart = false →
       b % 256 ≠ COMMAND_START →
       mcu1Step s b = (s, false)) ∧
    (∀ (s : Mcu1State) (b : Nat),
       s.romLoading = true → s.receivingData = false →
       s.isReadingCommandHeader = false →
       b % 256 ≠ COMMAND_START → b % 256 ≠ COMMAND_START2 →
       mcu1Step s b = (s, false)) ∧
    (∀ (s : Mcu1State) (b : Nat),
       s.romLoading = true → s.receivingData = false →
       s.isReadingCommandHeader = false →
       b % 256 ≠ COMMAND_START → b % 256 ≠ COMMAND_START2 →
       mcu1Run s [COMMAND_START, b] = { s with mayHaveStart := true }) := by
  refine ⟨mcu2Step_idle_discard, mcu2Step_gotFirst_discard, ?_,
          mcu1Step_idle_discard, mcu1Step_gotFirst_discard, ?_⟩
  · intro s b h1 h2 hb hb2
    rw [mcu2Run_cons, mcu2Step_first s h1 h2, mcu2Run_cons,
        mcu2Step_gotFirst_discard { s with mayHaveStart := true } b h1 h2 hb hb2,
        mcu2Run_nil]
  · intro s b h0 h1 h2 hb hb2
    rw [mcu1Run_cons, mcu1Step_first s h0 h1 h2]
    rw [if_neg (by simp)]
    rw [mcu1Run_cons,
        mcu1Step_gotFirst_discard { s with mayHaveStart := true } b h0 h1 h2 hb hb2]
    rw [if_neg (by simp)]
    rw [mcu1Run_nil]

/-- Claim C5, witness: the corrected theorem evaluated at concrete inputs. -/
theorem c5_witness :
    mcu2Run mcu2Idle [COMMAND_START, 0x00] = { mcu2Idle with mayHaveStart := true } ∧
    mcu2Step mcu2Idle 0x37 = mcu2Idle :=
  ⟨c5_malformed_sentinel.2.2.1 mcu2Idle 0x00 rfl rfl (by decide) (by decide),
   c5_malformed_sentinel.1 mcu2Idle 0x37 rfl rfl rfl (by decide)⟩

/-- Claim C3 (corrected).  The busy flag `sd_is_busy` is set by both request
senders and is never modified by the MCU1 receive path — so it does stay
`true` from the request until the completion frame is observed.  But the
`COMMAND_ROM_LOADED` dispatch handler clears only `romLoading` and sets
`sendDataReady`; it does NOT clear `sd_is_busy`, contrary to the claim's
final part. -/
theorem c3_busy_flag :
    (∀ (s : Mcu1State) (title : List Nat),
       (pc64SendLoadNewRomCommand s title).1.sdIsBusy = true ∧
       (pc64SendLoadNewRomCommand s title).1.romLoading = true ∧
       (pc64SendLoadNewRomCommand s title).1.sendDataReady = false) ∧
    (∀ (s : Mcu1State) (r0 r1 r2 r3 : Nat),
       (pc64SendSdReadCommand s r0 r1 r2 r3).1.sdIsBusy = true ∧
       (pc64SendSdReadCommand s r0 r1 r2 r3).1.sendDataReady = false) ∧
    (∀ (s : Mcu1State) (bs : List Nat), (mcu1Run s bs).sdIsBusy = s.sdIsBusy) ∧
    (∀ (s : Mcu1State),
       s.romLoading = true → s.receivingData = false →
       s.isReadingCommandHeader = false → s.chbIndex = 0 →
       (mcu1Run s romLoadedFrame).romLoading = false ∧
       (mcu1Run s romLoadedFrame).sendDataReady = true ∧
       (mcu1Run s romLoadedFrame).sdIsBusy = s.sdIsBusy) := by
  refine ⟨fun s title => ⟨rfl, rfl, rfl⟩,
          fun s r0 r1 r2 r3 => ⟨rfl, rfl⟩,
          fun s bs => mcu1Run_sdIsBusy bs s, ?_⟩
  intro s h0 h1 h2 h3
  have he : mcu1Run s romLoadedFrame
      = mcu1Dispatch { s with mayHaveStart := true, isReadingCommandHeader := false,
                              chb0 := COMMAND_ROM_LOADED % 256, chb1 := 0, chb2 := 0,
                              chbIndex := 0, numBytesToRead := 0, bufferIndex := 0 } :=
    mcu1_len0_frame s COMMAND_ROM_LOADED h0 h1 h2 h3
  have hr := mcu1Dispatch_rom_loaded
      { s with mayHaveStart := true, isReadingCommandHeader := false,
               chb0 := COMMAND_ROM_LOADED % 256, chb1 := 0, chb2 := 0,
               chbIndex := 0, numBytesToRead := 0, bufferIndex := 0 } rfl
  rw [he]
  exact ⟨hr.1, hr.2, mcu1Dispatch_sdIsBusy _⟩

/-- Claim C3, counterexample to the literal claim: issue the ROM-load
request (which sets `sd_is_busy`), then feed the ROM-loaded completion frame
to `mcu1_process_rx_buffer`.  The completion is observed — `romLoading`
is cleared and `sendDataReady` set — yet `sd_is_busy` is still `true`,
while the claim says that after completion is observed busy is false. -/
theorem c3_counterexample :
    (mcu1Run (pc64SendLoadNewRomCommand mcu1Idle [116, 101, 115, 116]).1
        romLoadedFrame).romLoading = false ∧
    (mcu1Run (pc64SendLoadNewRomCommand mcu1Idle [116, 101, 115, 116]).1
        romLoadedFrame).sendDataReady = true ∧
    (mcu1Run (pc64SendLoadNewRomCommand mcu1Idle [116, 101, 115, 116]).1
        romLoadedFrame).sdIsBusy = true := by
  decide

/-- Claim C3, witness: the corrected theorem applied at a concrete
post-request state. -/
theorem c3_witness :
    (mcu1Run (pc64SendLoadNewRomCommand mcu1Idle [116]).1
        romLoadedFrame).romLoading = false ∧
    (mcu1Run (pc64SendLoadNewRomCommand mcu1Idle [116]).1
        romLoadedFrame).sendDataReady = true ∧
    (mcu1Run (pc64SendLoadNewRomCommand mcu1Idle [116]).1
        romLoadedFrame).sdIsBusy
      = (pc64SendLoadNewRomCommand mcu1Idle [116]).1.sdIsBusy :=
  c3_busy_flag.2.2.2 (pc64SendLoadNewRomCommand mcu1Idle [116]).1 rfl rfl rfl rfl

/-! ## MCU1 raw sector-data mode (`romLoading == false`) -/

theorem mcu1Run_cons_nobreak {s s' : Mcu1State} {v : Nat} (bs : List Nat)
    (h : mcu1Step s v = (s', false)) :
    mcu1Run s (v :: bs) = mcu1Run s' bs := by
  rw [mcu1Run_cons, h]
  simp

theorem mcu1Run_cons_break {s s' : Mcu1State} {v : Nat} (bs : List Nat)
    (h : mcu1Step s v = (s', true)) :
    mcu1Run s (v :: bs) = s' := by
  rw [mcu1Run_cons, h]
  simp

theorem mcu1Step_raw_even (s : Mcu1State) (v : Nat)
    (h0 : s.romLoading = false) (h2 : s.bufferByteIndex % 2 = 0)
    (h3 : s.bufferByteIndex + 1 < 512) :
    mcu1Step s v
      = ({ s with lastBufferValue := v % 256,
                  bufferByteIndex := s.bufferByteIndex + 1 }, false) := by
  simp [mcu1Step, SD_CARD_SECTOR_SIZE, h0, h2, Nat.not_le.mpr h3]

theorem mcu1Step_raw_odd (s : Mcu1State) (v : Nat)
    (h0 : s.romLoading = false) (h2 : s.bufferByteIndex % 2 = 1)
    (h3 : s.bufferByteIndex + 1 < 512) :
    mcu1Step s v
      = ({ s with buf := storeWord16 s.buf s.bufferIndex
                           (((s.lastBufferValue <<< 8) ||| (v % 256)) % 65536),
                  bufferIndex := s.bufferIndex + 1,
                  bufferByteIndex := s.bufferByteIndex + 1 }, false) := by
  simp [mcu1Step, SD_CARD_SECTOR_SIZE, h0, h2, Nat.not_le.mpr h3]

theorem mcu1Step_raw_odd_break (s : Mcu1State) (v : Nat)
    (h0 : s.romLoading = false) (h2 : s.bufferByteIndex % 2 = 1)
    (h3 : 512 ≤ s.bufferByteIndex + 1) :
    mcu1Step s v
      = ({ s with buf := storeWord16 s.buf s.bufferIndex
                           (((s.lastBufferValue <<< 8) ||| (v % 256)) % 65536),
                  bufferIndex := s.bufferIndex + 1,
                  bufferByteIndex := s.bufferByteIndex + 1,
                  sendDataReady := true }, true) := by
  simp [mcu1Step, SD_CARD_SECTOR_SIZE, h0, h2, h3]

theorem storeWord16_lo (buf : Nat → Nat) (i v : Nat) :
    storeWord16 buf i v (2 * i) = v % 256 := by
  unfold storeWord16
  rw [Function.update_noteq (by omega), Function.update_same]

theorem storeWord16_hi (buf : Nat → Nat) (i v : Nat) :
    storeWord16 buf i v (2 * i + 1) = (v >>> 8) % 256 := by
  unfold storeWord16
  rw [Function.update_same]

theorem storeWord16_other (buf : Nat → Nat) (i v k : Nat)
    (h1 : k ≠ 2 * i) (h2 : k ≠ 2 * i + 1) :
    storeWord16 buf i v k = buf k := by
  unfold storeWord16
  rw [Function.update_noteq h2, Function.update_noteq h1]

theorem loadWord16_congr (f g : Nat → Nat) (j : Nat)
    (h1 : f (2 * j) = g (2 * j)) (h2 : f (2 * j + 1) = g (2 * j + 1)) :
    loadWord16 f j = loadWord16 g j := by
  unfold loadWord16
  rw [h1, h2]

theorem loadWord16_storeWord16 (buf : Nat → Nat) (i a c : Nat)
    (ha : a < 256) (hc : c < 256) :
    loadWord16 (storeWord16 buf i (((a <<< 8) ||| c) % 65536)) i
      = (a <<< 8) ||| c := by
  have hval : ((a <<< 8) ||| c) % 65536 = a * 256 + c := by
    rw [shiftLeft8_or_eq_add a c hc]
    exact Nat.mod_eq_of_lt (by omega)
  unfold loadWord16
  rw [storeWord16_lo, storeWord16_hi, hval]
  have h1 : (a * 256 + c) % 256 % 256 = c := by omega
  have h2 : ((a * 256 + c) >>> 8) % 256 % 256 = a := by
    rw [Nat.shiftRight_eq_div_pow]
    norm_num
    omega
  rw [h1, h2, Nat.lor_comm, shiftLeft8_or_eq_add a c hc]

/-- Invariant of the raw sector-data path of `mcu1_process_rx_buffer`: from
a state whose byte cursor is even (`bufferByteIndex = 2 * bufferIndex`),
feeding the remaining `2*(n+1)` bytes up to the 512-byte boundary combines
consecutive byte pairs big-endian into successive half-words of
`pc64_uart_tx_buf`, sets `sendDataReady`, touches none of the frame-parser
state, and triggers no dispatch. -/
theorem mcu1RunRaw_inv : ∀ (n : Nat) (s : Mcu1State) (bs : List Nat),
    s.romLoading = false →
    s.bufferByteIndex = 2 * s.bufferIndex →
    bs.length = 2 * (n + 1) →
    s.bufferByteIndex + 2 * (n + 1) = 512 →
    (mcu1Run s bs).sendDataReady = true ∧
    (mcu1Run s bs).romLoading = false ∧
    (mcu1Run s bs).receivingData = s.receivingData ∧
    (mcu1Run s bs).isReadingCommandHeader = s.isReadingCommandHeader ∧
    (mcu1Run s bs).mayHaveStart = s.mayHaveStart ∧
    (mcu1Run s bs).dispatches = s.dispatches ∧
    (∀ k, k < 2 * s.bufferIndex → (mcu1Run s bs).buf k = s.buf k) ∧
    (∀ j, s.bufferIndex ≤ j → j < 256 →
       loadWord16 (mcu1Run s bs).buf j
         = ((bs.getD (2 * (j - s.bufferIndex)) 0 % 256) <<< 8)
             ||| (bs.getD (2 * (j - s.bufferIndex) + 1) 0 % 256))
  | _, _, [], _, _, hlen, _ => by
    simp only [List.length_nil] at hlen; omega
  | _, _, [b], _, _, hlen, _ => by
    simp only [List.length_cons, List.length_nil] at hlen; omega
  | 0, s, b1 :: b2 :: rest, h0, hbb, hlen, hsum => by
    have step1 := mcu1Step_raw_even s b1 h0 (by omega) (by omega)
    have e1 := mcu1Run_cons_nobreak (b2 :: rest) step1
    have step2 := mcu1Step_raw_odd_break
        { s with lastBufferValue := b1 % 256,
                 bufferByteIndex := s.bufferByteIndex + 1 } b2
        h0 (by show (s.bufferByteIndex + 1) % 2 = 1; omega)
        (by show 512 ≤ (s.bufferByteIndex + 1) + 1; omega)
    have e2 := mcu1Run_cons_break rest step2
    rw [e1.trans e2]
    refine ⟨rfl, h0, rfl, rfl, rfl, rfl, ?_, ?_⟩
    · intro k hk
      exact storeWord16_other s.buf s.bufferIndex _ k (by omega) (by omega)
    · intro j hj1 hj2
      have hj : j = s.bufferIndex := by omega
      rw [hj, Nat.sub_self]
      simp only [Nat.mul_zero, List.getD_cons_zero, List.getD_cons_succ]
      exact loadWord16_storeWord16 s.buf s.bufferIndex (b1 % 256) (b2 % 256)
        (Nat.mod_lt _ (by norm_num)) (Nat.mod_lt _ (by norm_num))
  | m + 1, s, b1 :: b2 :: rest, h0, hbb, hlen, hsum => by
    have hlen' : rest.length = 2 * (m + 1) := by simp at hlen; omega
    have step1 := mcu1Step_raw_even s b1 h0 (by omega) (by omega)
    have e1 := mcu1Run_cons_nobreak (b2 :: rest) step1
    have step2 := mcu1Step_raw_odd
        { s with lastBufferValue := b1 % 256,
                 bufferByteIndex := s.bufferByteIndex + 1 } b2
        h0 (by show (s.bufferByteIndex + 1) % 2 = 1; omega)
        (by show (s.bufferByteIndex + 1) + 1 < 512; omega)
    have e2 := mcu1Run_cons_nobreak rest step2
    have IH := mcu1RunRaw_inv m
        { s with lastBufferValue := b1 % 256,
                 buf := storeWord16 s.buf s.bufferIndex
                          ((((b1 % 256) <<< 8) ||| (b2 % 256)) % 65536),
                 bufferIndex := s.bufferIndex + 1,
                 bufferByteIndex := s.bufferByteIndex + 1 + 1 }
        rest h0
        (by show s.bufferByteIndex + 1 + 1 = 2 * (s.bufferIndex + 1); omega)
        hlen'
        (by show (s.bufferByteIndex + 1 + 1) + 2 * (m + 1) = 512; omega)
    rw [e1.trans e2]
    refine ⟨?_, ?_, ?_, ?_, ?_, ?_, ?_, ?_⟩
    · exact IH.1
    · exact IH.2.1
    · exact IH.2.2.1
    · exact IH.2.2.2.1
    · exact IH.2.2.2.2.1
    · exact IH.2.2.2.2.2.1
    · intro k hk
      have hpres := IH.2.2.2.2.2.2.1 k
        (by show k < 2 * (s.bufferIndex + 1); omega)
      exact hpres.trans (storeWord16_other s.buf s.bufferIndex _ k (by omega) (by omega))
    · intro j hj1 hj2
      by_cases hji : j = s.bufferIndex
      · rw [hji, Nat.sub_self]
        simp only [Nat.mul_zero, List.getD_cons_zero, List.getD_cons_succ]
        have hp1 := IH.2.2.2.2.2.2.1 (2 * s.bufferIndex)
          (by show 2 * s.bufferIndex < 2 * (s.bufferIndex + 1); omega)
        have hp2 := IH.2.2.2.2.2.2.1 (2 * s.bufferIndex + 1)
          (by show 2 * s.bufferIndex + 1 < 2 * (s.bufferIndex + 1); omega)
        exact (loadWord16_congr _ _ s.bufferIndex hp1 hp2).trans
          (loadWord16_storeWord16 s.buf s.bufferIndex (b1 % 256) (b2 % 256)
            (Nat.mod_lt _ (by norm_num)) (Nat.mod_lt _ (by norm_num)))
      · have hw := IH.2.2.2.2.2.2.2 j
          (by show s.bufferIndex + 1 ≤ j; omega) hj2
        have ha : 2 * (j - s.bufferIndex) = (2 * (j - (s.bufferIndex + 1)) + 1) + 1 := by
          omega
        rw [ha]
        simp only [List.getD_cons_succ]
        exact hw

/-- Claim C10 (confirmed): while `romLoading` is false, `mcu1_process_rx_buffer`
does not run the frame parser — every byte is treated as raw sector data —
consecutive byte pairs are combined big-endian into 16-bit half-words stored
at successive indices of `pc64_uart_tx_buf`, and `sendDataReady` is set once
512 bytes have accumulated. -/
theorem c10_raw_sector_data :
    (∀ (s : Mcu1State) (v : Nat), s.romLoading = false →
       (mcu1Step s v).1.receivingData = s.receivingData ∧
       (mcu1Step s v).1.isReadingCommandHeader = s.isReadingCommandHeader ∧
       (mcu1Step s v).1.mayHaveStart = s.mayHaveStart ∧
       (mcu1Step s v).1.dispatches = s.dispatches) ∧
    (∀ (s : Mcu1State) (bs : List Nat),
       s.romLoading = false → s.bufferIndex = 0 → s.bufferByteIndex = 0 →
       bs.length = 512 →
       (mcu1Run s bs).sendDataReady = true ∧
       (mcu1Run s bs).dispatches = s.dispatches ∧
       (mcu1Run s bs).receivingData = s.receivingData ∧
       (mcu1Run s bs).isReadingCommandHeader = s.isReadingCommandHeader ∧
       (mcu1Run s bs).mayHaveStart = s.mayHaveStart ∧
       (∀ j, j < 256 →
          loadWord16 (mcu1Run s bs).buf j
            = ((bs.getD (2 * j) 0 % 256) <<< 8) ||| (bs.getD (2 * j + 1) 0 % 256))) := by
  constructor
  · intro s v h0
    refine ⟨?_, ?_, ?_, ?_⟩ <;>
      (simp only [mcu1Step, h0, Bool.false_eq_true, if_false] <;> (repeat' split) <;> rfl)
  · intro s bs h0 hbi hbb hlen
    have H := mcu1RunRaw_inv 255 s bs h0 (by omega) (by omega) (by omega)
    refine ⟨H.1, H.2.2.2.2.2.1, H.2.2.1, H.2.2.2.1, H.2.2.2.2.1, ?_⟩
    intro j hj
    have hw := H.2.2.2.2.2.2.2 j (by omega) hj
    rw [hbi, Nat.sub_zero] at hw
    exact hw

/-- Claim C10, witness: the theorem applied to 512 concrete bytes. -/
theorem c10_witness :
    (mcu1Run mcu1Idle (List.replicate 512 7)).sendDataReady = true ∧
    ((List.replicate 512 7 : List Nat).length = 512) :=
  ⟨(c10_raw_sector_data.2 mcu1Idle (List.replicate 512 7) rfl rfl rfl
      (by rw [List.length_replicate])).1, by rw [List.length_replicate]⟩

/-! ## PI bus dispatcher claims -/

/-- Claim C9, counterexample to the literal claim: the address `0x08040000`
lies in the Save-RAM region and has bits in `0xC0000`, so the claim's index
`((a & 0x7FFF) | ((a & 0xC0000) >> 3)) >> 1` (the bank-folding
`resolve_sram_address`) gives `0x4000`, but the dispatcher's Save-RAM entry
(line 308) computes `(a & 0x7FFF) >> 1 = 0`. -/
theorem c9_counterexample :
    inSramRegion 0x08040000 ∧
    dispatcherSramIndex 0x08040000 = 0 ∧
    (resolve_sram_address 0x08040000) >>> 1 = 0x4000 ∧
    dispatcherSramIndex 0x08040000 ≠ (resolve_sram_address 0x08040000) >>> 1 := by
  refine ⟨⟨by decide, by decide⟩, by decide, by decide, by decide⟩

/-- Claim C9 (corrected): the dispatcher's Save-RAM path bypasses the Chip
Table and accesses the fixed local `sram` buffer, but at index
`(a & 0x7FFF) >> 1`, not at the bank-folded index computed by
`resolve_sram_address` (which exists in the source but is not used by the
active Save-RAM path); the two agree exactly when `a` has no bits in
`0xC0000`. -/
theorem c9_sram_indexing :
    (∀ (sram : Nat → Nat) (a : Nat),
       sramRegionEntry sram a
         = { sram := sram, sramAddr := (a &&& 0x7FFF) >>> 1, lastAddr := a,
             nextWord := sram ((a &&& 0x7FFF) >>> 1) }) ∧
    (∀ a : Nat, dispatcherSramIndex a = (a &&& 0x7FFF) >>> 1) ∧
    (∀ a : Nat, a &&& 0xC0000 = 0 →
       (resolve_sram_address a) >>> 1 = dispatcherSramIndex a) := by
  refine ⟨fun sram a => rfl, fun a => rfl, fun a h => ?_⟩
  unfold resolve_sram_address dispatcherSramIndex
  rw [h]
  simp

/-- Claim C9, witness: the corrected theorem applied to concrete inputs. -/
theorem c9_witness :
    (0x08001234 &&& 0xC0000 = 0) ∧
    (resolve_sram_address 0x08001234) >>> 1 = dispatcherSramIndex 0x08001234 :=
  ⟨by decide, c9_sram_indexing.2.2 0x08001234 (by decide)⟩

/-- Claim C8, counterexample to the literal claim: with `sd_is_busy = true`,
the read of the SD_BUSY register serves `0x0000` on the first bus cycle (the
half at the register's offset, i.e. the high half of the big-endian 32-bit
value) and `0x0001` on the second; the reconstructed 32-bit value is
`0x00000001`, whose LOW half is 1 (not "always 0") and whose HIGH half is 0
(it does not "carry the flag"). -/
theorem c8_counterexample :
    cibaseIter true false (PC64_CIBASE_ADDRESS_START + PC64_REGISTER_SD_BUSY) [0]
      = CibaseRes.cont (PC64_CIBASE_ADDRESS_START + PC64_REGISTER_SD_BUSY + 2)
          [CiEvent.putWord 0] [] ∧
    cibaseIter true false (PC64_CIBASE_ADDRESS_START + PC64_REGISTER_SD_BUSY + 2) [0]
      = CibaseRes.cont (PC64_CIBASE_ADDRESS_START + PC64_REGISTER_SD_BUSY + 4)
          [CiEvent.putWord 1] [] ∧
    (65536 * 0 + 1) % 65536 ≠ 0 ∧
    (65536 * 0 + 1) >>> 16 ≠ 1 := by
  refine ⟨by decide, by decide, by decide, by decide⟩

/-- Claim C8 (corrected): a two-half read of SD_BUSY is served as two
separate half-word reads on consecutive bus cycles; the half at the
register's offset (served first, the high half of the 32-bit value) is the
constant 0, and the half at offset +2 (served second, the low half) equals 1
exactly when `sd_is_busy` is true — so the 32-bit value read is
`0x00000001` when busy and `0x00000000` when idle. -/
theorem c8_sd_busy_read (busy : Bool) :
    cibaseIter busy false (PC64_CIBASE_ADDRESS_START + PC64_REGISTER_SD_BUSY) [0]
      = CibaseRes.cont (PC64_CIBASE_ADDRESS_START + PC64_REGISTER_SD_BUSY + 2)
          [CiEvent.putWord 0x0000] [] ∧
    cibaseIter busy false (PC64_CIBASE_ADDRESS_START + PC64_REGISTER_SD_BUSY + 2) [0]
      = CibaseRes.cont (PC64_CIBASE_ADDRESS_START + PC64_REGISTER_SD_BUSY + 4)
          [CiEvent.putWord (if busy then 0x0001 else 0x0000)] [] ∧
    65536 * 0x0000 + (if busy then 0x0001 else 0x0000)
      = (if busy then 0x00000001 else 0x00000000) := by
  cases busy <;> exact ⟨by decide, by decide, by decide⟩

/-- Claim C2, counterexample to the literal claim: with the restart flag set
and a read request (word 0) arriving, the Save-RAM inner loop does NOT exit —
it serves the read and continues (its body never reads
`g_restart_pi_handler`); likewise the Cartridge-ROM inner loop. -/
theorem c2_counterexample :
    (sramStep true exSramState 0).exits = false ∧
    (romStep true exRomState 0).exits = false := by
  refine ⟨by decide, by decide⟩

/-- Claim C2 (corrected): `g_restart_pi_handler` is not polled by the
Save-RAM and Cartridge-ROM inner loops at all (their steps do not depend on
it); it is polled at the END of each handled iteration of the
Peripheral-Base, Control-Register and Random-Number inner loops (the aborted
MAGIC-read `continue` path skips the poll), and at the head of the outer
loop, whose guard fails when the flag is set, after which `n64_pi_run` tears
down the PIO program and returns. -/
theorem c2_restart_polling :
    (∀ (r r' : Bool) (s : SramState) (w : Nat), sramStep r s w = sramStep r' s w) ∧
    (∀ (r r' : Bool) (s : RomState) (w : Nat), romStep r s w = romStep r' s w) ∧
    (∀ (s : BaseState) (w : Nat), w % 2 = 1 ∨ w = 0 →
       (baseStep true s w).exitsByRestart = true) ∧
    (∀ (s : RandState) (w : Nat), w % 2 = 1 ∨ w = 0 →
       (randStep true s w).exitsByRestart = true) ∧
    (∀ (busy : Bool) (la w w2 : Nat) (rest : List Nat), w % 2 = 1 →
       (cibaseIter busy true la (w :: w2 :: rest)).exitsByRestart = true) ∧
    (∀ (busy : Bool) (la w2 : Nat) (rest : List Nat),
       la - PC64_CIBASE_ADDRESS_START ≠ PC64_REGISTER_MAGIC ∨ w2 = 0 →
       (cibaseIter busy true la (0 :: w2 :: rest)).exitsByRestart = true) ∧
    outerLoopGuard true = false := by
  refine ⟨fun r r' s w => rfl, fun r r' s w => rfl, ?_, ?_, ?_, ?_, rfl⟩
  · intro s w h
    rcases h with h | h
    · simp [baseStep, h, InnerStep.exitsByRestart]
    · subst h
      simp [baseStep, InnerStep.exitsByRestart]
  · intro s w h
    rcases h with h | h
    · simp [randStep, h, InnerStep.exitsByRestart]
    · subst h
      simp [randStep, InnerStep.exitsByRestart]
  · intro busy la w w2 rest hw
    have hw0 : ¬ (w = 0) := by omega
    rw [cibaseIter, if_neg hw0, if_pos hw]
    simp only [apply_ite CibaseRes.exitsByRestart]
    simp [CibaseRes.exitsByRestart]
  · intro busy la w2 rest h
    rcases h with h | h
    · rw [cibaseIter, if_pos rfl, if_neg h]
      simp [CibaseRes.exitsByRestart]
    · subst h
      rw [cibaseIter, if_pos rfl]
      simp only [apply_ite CibaseRes.exitsByRestart]
      simp [CibaseRes.exitsByRestart]

/-- Claim C2, witness: the corrected theorem applied at concrete inputs. -/
theorem c2_witness :
    ((0 : Nat) % 2 = 1 ∨ (0 : Nat) = 0) ∧
    (baseStep true exBaseState 0).exitsByRestart = true :=
  ⟨Or.inr rfl, c2_restart_polling.2.2.1 exBaseState 0 (Or.inr rfl)⟩

/-- Claim C7 (confirmed): the cursor `last_addr` advances by exactly 2 for
every served single-half operation (reads and writes in the Save-RAM, ROM,
Peripheral-Base and Random loops; single-half register operations in the
Control-Register loop, including the half of an interrupted MAGIC read), by
exactly 4 for the dual-half operations (UART_TX and RAND_SEED writes and the
completed two-half MAGIC read), and never decreases. -/
theorem c7_cursor_advance :
    (∀ (r : Bool) (s : SramState) (w : Nat),
       ((w % 2 = 1 ∨ w = 0) → (sramStep r s w).state.lastAddr = s.lastAddr + 2) ∧
       s.lastAddr ≤ (sramStep r s w).state.lastAddr) ∧
    (∀ (r : Bool) (s : RomState) (w : Nat),
       ((w % 2 = 1 ∨ w = 0) → (romStep r s w).state.lastAddr = s.lastAddr + 2) ∧
       s.lastAddr ≤ (romStep r s w).state.lastAddr) ∧
    (∀ (r : Bool) (s : BaseState) (w : Nat),
       ((w % 2 = 1 ∨ w = 0) → (baseStep r s w).state.lastAddr = s.lastAddr + 2) ∧
       s.lastAddr ≤ (baseStep r s w).state.lastAddr) ∧
    (∀ (r : Bool) (s : RandState) (w : Nat),
       ((w % 2 = 1 ∨ w = 0) → (randStep r s w).state.lastAddr = s.lastAddr + 2) ∧
       s.lastAddr ≤ (randStep r s w).state.lastAddr) ∧
    (∀ (busy r : Bool) (la : Nat) (rest : List Nat),
       la - PC64_CIBASE_ADDRESS_START ≠ PC64_REGISTER_MAGIC →
       (cibaseIter busy r la (0 :: rest)).addr la = la + 2) ∧
    (∀ (busy r : Bool) (la : Nat) (rest : List Nat),
       la - PC64_CIBASE_ADDRESS_START = PC64_REGISTER_MAGIC →
       (cibaseIter busy r la (0 :: 0 :: rest)).addr la = la + 4) ∧
    (∀ (busy r : Bool) (la w2 : Nat) (rest : List Nat),
       la - PC64_CIBASE_ADDRESS_START = PC64_REGISTER_MAGIC → w2 ≠ 0 →
       (cibaseIter busy r la (0 :: w2 :: rest)).addr la = la + 2) ∧
    (∀ (busy r : Bool) (la w w2 : Nat) (rest : List Nat), w % 2 = 1 →
       (la - PC64_CIBASE_ADDRESS_START = PC64_REGISTER_UART_TX ∨
        la - PC64_CIBASE_ADDRESS_START = PC64_REGISTER_RAND_SEED) →
       (cibaseIter busy r la (w :: w2 :: rest)).addr la = la + 4) ∧
    (∀ (busy r : Bool) (la w : Nat) (rest : List Nat), w % 2 = 1 →
       la - PC64_CIBASE_ADDRESS_START ≠ PC64_REGISTER_UART_TX →
       la - PC64_CIBASE_ADDRESS_START ≠ PC64_REGISTER_RAND_SEED →
       (cibaseIter busy r la (w :: rest)).addr la = la + 2) ∧
    (∀ (busy r : Bool) (la : Nat) (input : List Nat),
       la ≤ (cibaseIter busy r la input).addr la) := by
  refine ⟨?_, ?_, ?_, ?_, ?_, ?_, ?_, ?_, ?_, ?_⟩
  · intro r s w
    constructor
    · rintro (h | h)
      · simp [sramStep, h, InnerStep.state]
      · subst h
        simp [sramStep, InnerStep.state]
    · by_cases h1 : w % 2 = 1
      · simp [sramStep, h1, InnerStep.state]
      · by_cases h0 : w = 0
        · subst h0
          simp [sramStep, InnerStep.state]
        · simp [sramStep, h1, h0, InnerStep.state]
  · intro r s w
    constructor
    · rintro (h | h)
      · have h0 : ¬ (w = 0) := by omega
        simp [romStep, h, h0, InnerStep.state]
      · subst h
        simp [romStep, InnerStep.state]
    · by_cases h0 : w = 0
      · subst h0
        simp [romStep, InnerStep.state]
      · by_cases h1 : w % 2 = 1
        · simp [romStep, h1, h0, InnerStep.state]
        · simp [romStep, h1, h0, InnerStep.state]
  · intro r s w
    constructor
    · rintro (h | h)
      · simp only [baseStep]
        rw [if_pos h]
        simp only [apply_ite InnerStep.state]
        simp [InnerStep.state]
      · subst h
        simp only [baseStep]
        rw [if_neg (by decide), if_pos trivial]
        simp only [apply_ite InnerStep.state]
        simp [InnerStep.state]
    · by_cases h1 : w % 2 = 1
      · simp only [baseStep]
        rw [if_pos h1]
        simp only [apply_ite InnerStep.state]
        simp [InnerStep.state]
      · by_cases h0 : w = 0
        · subst h0
          simp only [baseStep]
          rw [if_neg (by decide), if_pos trivial]
          simp only [apply_ite InnerStep.state]
          simp [InnerStep.state]
        · simp only [baseStep]
          rw [if_neg h1, if_neg h0]
          simp [InnerStep.state]
  · intro r s w
    constructor
    · rintro (h | h)
      · simp only [randStep]
        rw [if_pos h]
        simp only [apply_ite InnerStep.state]
        simp [InnerStep.state]
      · subst h
        simp only [randStep]
        rw [if_neg (by decide), if_pos trivial]
        simp only [apply_ite InnerStep.state]
        simp [InnerStep.state]
    · by_cases h1 : w % 2 = 1
      · simp only [randStep]
        rw [if_pos h1]
        simp only [apply_ite InnerStep.state]
        simp [InnerStep.state]
      · by_cases h0 : w = 0
        · subst h0
          simp only [randStep]
          rw [if_neg (by decide), if_pos trivial]
          simp only [apply_ite InnerStep.state]
          simp [InnerStep.state]
        · simp only [randStep]
          rw [if_neg h1, if_neg h0]
          simp [InnerStep.state]
  · intro busy r la rest h
    rw [cibaseIter.eq_def]
    simp only []
    rw [if_pos trivial, if_neg h]
    simp only [apply_ite (CibaseRes.addr la)]
    simp [CibaseRes.addr]
  · intro busy r la rest h
    rw [cibaseIter.eq_def]
    simp only []
    rw [if_pos trivial, if_pos h, if_pos trivial]
    simp only [apply_ite (CibaseRes.addr la)]
    simp [CibaseRes.addr]
  · intro busy r la w2 rest h hw2
    rw [cibaseIter.eq_def]
    simp only []
    rw [if_pos trivial, if_pos h, if_neg hw2]
    simp [CibaseRes.addr]
  · intro busy r la w w2 rest hw hoff
    have hw0 : ¬ (w = 0) := by omega
    rcases hoff with hoff | hoff
    · rw [cibaseIter.eq_def]
      simp only []
      rw [if_neg hw0, if_pos hw, if_pos hoff]
      simp only [apply_ite (CibaseRes.addr la)]
      simp [CibaseRes.addr]
    · have hne : la - PC64_CIBASE_ADDRESS_START ≠ PC64_REGISTER_UART_TX := by
        rw [hoff]
        decide
      rw [cibaseIter.eq_def]
      simp only []
      rw [if_neg hw0, if_pos hw, if_neg hne, if_pos hoff]
      simp only [apply_ite (CibaseRes.addr la)]
      simp [CibaseRes.addr]
  · intro busy r la w rest hw h1 h2
    have hw0 : ¬ (w = 0) := by omega
    rw [cibaseIter.eq_def]
    simp only []
    rw [if_neg hw0, if_pos hw, if_neg h1, if_neg h2]
    simp only [apply_ite (CibaseRes.addr la)]
    simp [CibaseRes.addr]
  · intro busy r la input
    rcases input with _ | ⟨w, rest⟩
    · rw [cibaseIter.eq_def]
      simp [CibaseRes.addr]
    · by_cases hw0 : w = 0
      · subst hw0
        rw [cibaseIter.eq_def]
        simp only []
        rw [if_pos trivial]
        by_cases hoff : la - PC64_CIBASE_ADDRESS_START = PC64_REGISTER_MAGIC
        · rw [if_pos hoff]
          rcases rest with _ | ⟨w2, rest2⟩
          · simp [CibaseRes.addr]
          · simp only [apply_ite (CibaseRes.addr la)]
            simp only [CibaseRes.addr]
            repeat' split
            all_goals omega
        · rw [if_neg hoff]
          simp only [apply_ite (CibaseRes.addr la)]
          simp only [CibaseRes.addr]
          repeat' split
          all_goals omega
      · by_cases hw1 : w % 2 = 1
        · rcases rest with _ | ⟨w2, rest2⟩
          · rw [cibaseIter.eq_def]
            simp only []
            rw [if_neg hw0, if_pos hw1]
            simp only [apply_ite (CibaseRes.addr la)]
            simp only [CibaseRes.addr]
            repeat' split
            all_goals omega
          · rw [cibaseIter.eq_def]
            simp only []
            rw [if_neg hw0, if_pos hw1]
            simp only [apply_ite (CibaseRes.addr la)]
            simp only [CibaseRes.addr]
            repeat' split
            all_goals omega
        · rw [cibaseIter.eq_def]
          simp only []
          rw [if_neg hw0, if_neg hw1]
          simp [CibaseRes.addr]

/-- Claim C7, witness: the theorem applied at concrete inputs (a UART_TX
dual-half write advancing the cursor by 4). -/
theorem c7_witness :
    ((1 : Nat) % 2 = 1) ∧
    ((PC64_CIBASE_ADDRESS_START + 0x4) - PC64_CIBASE_ADDRESS_START
       = PC64_REGISTER_UART_TX) ∧
    (cibaseIter false false (PC64_CIBASE_ADDRESS_START + 0x4) [1, 0]).addr
        (PC64_CIBASE_ADDRESS_START + 0x4)
      = (PC64_CIBASE_ADDRESS_START + 0x4) + 4 :=
  ⟨by decide, by decide,
   c7_cursor_advance.2.2.2.2.2.2.2.1 false false (PC64_CIBASE_ADDRESS_START + 0x4)
     1 0 [] (by decide) (Or.inl (by decide))⟩

/-- Claim C1, counterexample: in the Control-Register loop a read (sampled
word 0) at the unrecognized register offset 0x40 emits nothing at all — no
pre-fetched value is pushed (`next_word` stays 0 and the PIO push in the
default read case does not happen) — while the cursor still advances by 2. -/
theorem c1_counterexample :
    cibaseIter false false (PC64_CIBASE_ADDRESS_START + 0x40) [0]
      = CibaseRes.cont (PC64_CIBASE_ADDRESS_START + 0x40 + 2) [] [] := by
  decide

/-- Claim C1 (corrected): classification of every sampled 32-bit word in
every region inner loop.  A word with low bit 1 is handled as a write; in
the Save-RAM and Peripheral-Base loops (and the recognized Control-Register
registers) the stored payload is the upper 16 bits of the word, while the
Cartridge-ROM and Random-Number loops discard the payload and only advance
the cursor.  A word equal to 0 is handled as a read; the Save-RAM,
Cartridge-ROM, Peripheral-Base and Random-Number loops emit the pre-fetched
value for the current cursor, but a Control-Register read at an offset the
switch does not recognize emits nothing.  Any other word (nonzero with low
bit 0) terminates the inner loop as a new address. -/
theorem c1_io_classification :
    (∀ (r : Bool) (s : SramState) (w : Nat),
       (w % 2 = 1 → sramStep r s w = InnerStep.cont
          { s with sram := Function.update s.sram s.sramAddr ((w >>> 16) % 65536),
                   sramAddr := s.sramAddr + 1, lastAddr := s.lastAddr + 2 } []) ∧
       (sramStep r s 0 = InnerStep.cont
          { s with lastAddr := s.lastAddr + 2, sramAddr := s.sramAddr + 1,
                   nextWord := s.sram (s.sramAddr + 1) } [s.nextWord]) ∧
       (w % 2 = 0 → w ≠ 0 → sramStep r s w = InnerStep.newAddr s w)) ∧
    (∀ (r : Bool) (s : RomState) (w : Nat),
       (w % 2 = 1 → romStep r s w = InnerStep.cont
          { s with lastAddr := s.lastAddr + 2 } []) ∧
       (romStep r s 0 = InnerStep.cont
          { s with dmaBi := s.dmaBi + 1, lastAddr := s.lastAddr + 2 }
          [s.buf s.dmaBi]) ∧
       (w % 2 = 0 → w ≠ 0 → romStep r s w = InnerStep.newAddr s w)) ∧
    (∀ (r : Bool) (s : BaseState) (w : Nat),
       (w % 2 = 1 → baseStep r s w =
          (if r then
             InnerStep.restartExit
               { s with buf := Function.update s.buf (baseBufIndex s.lastAddr)
                                 (swap8 ((w >>> 16) % 65536)),
                        lastAddr := s.lastAddr + 2 } []
           else
             InnerStep.cont
               { s with buf := Function.update s.buf (baseBufIndex s.lastAddr)
                                 (swap8 ((w >>> 16) % 65536)),
                        lastAddr := s.lastAddr + 2 } [])) ∧
       (baseStep r s 0 =
          (if r then
             InnerStep.restartExit { s with lastAddr := s.lastAddr + 2 }
               [s.buf (baseBufIndex s.lastAddr)]
           else
             InnerStep.cont { s with lastAddr := s.lastAddr + 2 }
               [s.buf (baseBufIndex s.lastAddr)])) ∧
       (w % 2 = 0 → w ≠ 0 → baseStep r s w = InnerStep.newAddr s w)) ∧
    (∀ (r : Bool) (s : RandState) (w : Nat),
       (w % 2 = 1 → randStep r s w =
          (if r then
             InnerStep.restartExit { s with lastAddr := s.lastAddr + 2 } []
           else
             InnerStep.cont { s with lastAddr := s.lastAddr + 2 } [])) ∧
       (randStep r s 0 =
          (if r then
             InnerStep.restartExit
               { s with randIdx := s.randIdx + 1, lastAddr := s.lastAddr + 2 }
               [s.rand s.randIdx % 65536]
           else
             InnerStep.cont
               { s with randIdx := s.randIdx + 1, lastAddr := s.lastAddr + 2 }
               [s.rand s.randIdx % 65536])) ∧
       (w % 2 = 0 → w ≠ 0 → randStep r s w = InnerStep.newAddr s w)) ∧
    (∀ (busy r : Bool) (la w : Nat) (rest : List Nat),
       w % 2 = 0 → w ≠ 0 →
       cibaseIter busy r la (w :: rest) = CibaseRes.newAddr la w [] rest) ∧
    (∀ (busy r : Bool) (la : Nat) (rest : List Nat),
       la - PC64_CIBASE_ADDRESS_START = 0x40 →
       cibaseIter busy r la (0 :: rest) =
         (if r then CibaseRes.restartExit (la + 2) [] rest
          else CibaseRes.cont (la + 2) [] rest)) ∧
    (∀ (busy r : Bool) (la w : Nat) (rest : List Nat),
       w % 2 = 1 →
       la - PC64_CIBASE_ADDRESS_START = PC64_REGISTER_SD_READ_SECTOR0 →
       cibaseIter busy r la (w :: rest) =
         (if r then
            CibaseRes.restartExit (la + 2)
              [CiEvent.setSectorPart 0 (w &&& 0xFFFF0000)] rest
          else
            CibaseRes.cont (la + 2)
              [CiEvent.setSectorPart 0 (w &&& 0xFFFF0000)] rest)) := by
  refine ⟨?_, ?_, ?_, ?_, ?_, ?_, ?_⟩
  · intro r s w
    refine ⟨?_, ?_, ?_⟩
    · intro h
      simp only [sramStep]
      rw [if_pos h]
    · rfl
    · intro h h0
      simp only [sramStep]
      rw [if_neg (by omega), if_neg h0]
  · intro r s w
    refine ⟨?_, ?_, ?_⟩
    · intro h
      simp only [romStep]
      rw [if_neg (by omega), if_pos h]
    · rfl
    · intro h h0
      simp only [romStep]
      rw [if_neg h0, if_neg (by omega)]
  · intro r s w
    refine ⟨?_, ?_, ?_⟩
    · intro h
      simp only [baseStep]
      rw [if_pos h]
    · simp only [baseStep]
      rw [if_neg (by decide), if_pos trivial]
    · intro h h0
      simp only [baseStep]
      rw [if_neg (by omega), if_neg h0]
  · intro r s w
    refine ⟨?_, ?_, ?_⟩
    · intro h
      simp only [randStep]
      rw [if_pos h]
    · simp only [randStep]
      rw [if_neg (by decide), if_pos trivial]
    · intro h h0
      simp only [randStep]
      rw [if_neg (by omega), if_neg h0]
  · intro busy r la w rest h h0
    rw [cibaseIter.eq_def]
    simp only []
    rw [if_neg h0, if_neg (by omega)]
  · intro busy r la rest hoff
    rw [cibaseIter.eq_def]
    simp only []
    rw [if_pos trivial, hoff]
    rw [if_neg (by decide)]
    cases r
    · rw [if_neg (by decide), if_neg (by decide), if_neg (by decide)]
      rfl
    · rw [if_pos rfl, if_neg (by decide), if_neg (by decide)]
      rfl
  · intro busy r la w rest hw hoff
    rw [cibaseIter.eq_def]
    simp only []
    rw [if_neg (by omega), if_pos hw, hoff]
    rw [if_neg (by decide), if_neg (by decide)]
    cases r
    · rw [if_neg (by decide), if_neg (by decide), if_neg (by decide), if_pos rfl]
      rfl
    · rw [if_pos rfl, if_neg (by decide), if_neg (by decide), if_pos rfl]
      rfl

/-- Claim C1, witness: the corrected theorem applied at concrete inputs (a
nonzero even word leaving the Save-RAM loop as a new address). -/
theorem c1_witness :
    ((4 : Nat) % 2 = 0) ∧ ((4 : Nat) ≠ 0) ∧
    sramStep false exSramState 4 = InnerStep.newAddr exSramState 4 :=
  ⟨by decide, by decide,
   (c1_io_classification.1 false exSramState 4).2.2 (by decide) (by decide)⟩

end PicoCart
